import Mathlib

/-!
Verification of the F1 UDP telemetry decoder and dispatch layer
(`src/f1_telemetry/client.py`, `src/f1_telemetry/packets.py`,
`src/f1_dispatcher/dispatcher.py`).

Modelling conventions:
* A Python `bytes` buffer is a `List Nat`, each element a byte value.
* Machine integers are `Nat` (unsigned) or `Int` (signed), exactly as wide
  as the wire field; no overflow arises because fields are read, not written.
* IEEE-754 `f32`/`f64` fields that the code merely unpacks and stores are
  kept as their raw little-endian bit patterns (a `Nat`); the only float
  arithmetic in the decoder, the division of the motion direction vectors
  by 32767.0, is modelled with exact rational arithmetic over `ℚ`.
* `struct.unpack` on a slice of the wrong length raises `struct.error`,
  indexing past the end raises `IndexError`; both are caught by the
  parsers' `try`/`except` and turned into `None`.  Readers therefore
  return `Option`, and a parser body is an `Option` computation.  Where a
  parser's length guard makes every read of the body provably in range,
  total readers (`byteAt`, `u16At`, ...) are used instead; this is
  extensionally the same function.
* Python slice semantics (negative indices wrap, bounds clamp) are
  reproduced by `pySlice`; the car-indexed parsers need this because they
  never validate `car_index` and a negative index produces a wrapping
  slice.
-/

namespace F1

/-- A byte buffer: list of byte values (each < 256 on the wire; the
definitions do not depend on that bound). -/
abbrev ByteBuf := List Nat

/-- Python slice `l[a:b]` with full Python semantics: negative bounds count
from the end, and all bounds are clamped to `[0, len]`. -/
def pySlice (l : ByteBuf) (a b : Int) : ByteBuf :=
  let n : Int := l.length
  let s : Int := if a < 0 then max (n + a) 0 else min a n
  let e : Int := if b < 0 then max (n + b) 0 else min b n
  (l.drop s.toNat).take (e - s).toNat

/-- Total byte read `l[i]` defaulting to 0 (used only where the source's
index is provably in range). -/
def byteAt (l : ByteBuf) (i : Nat) : Nat := l.getD i 0

/-- Little-endian u16 at offset `i` (total form). -/
def u16At (l : ByteBuf) (i : Nat) : Nat :=
  l.getD i 0 + 256 * l.getD (i+1) 0

/-- Little-endian u32 at offset `i` (total form). -/
def u32At (l : ByteBuf) (i : Nat) : Nat :=
  l.getD i 0 + 256 * l.getD (i+1) 0 + 65536 * l.getD (i+2) 0
    + 16777216 * l.getD (i+3) 0

/-- Little-endian u64 at offset `i` (total form). -/
def u64At (l : ByteBuf) (i : Nat) : Nat :=
  u32At l i + 4294967296 * u32At l (i+4)

/-- Signed 8-bit value at offset `i` (total form), two's complement. -/
def i8At (l : ByteBuf) (i : Nat) : Int :=
  let b := l.getD i 0
  if b < 128 then (b : Int) else (b : Int) - 256

/-- Signed little-endian 16-bit value at offset `i` (total form). -/
def i16At (l : ByteBuf) (i : Nat) : Int :=
  let v := u16At l i
  if v < 32768 then (v : Int) else (v : Int) - 65536

/-- `d[i]`: raises `IndexError` when out of range, hence `Option`. -/
def getByte (l : ByteBuf) (i : Nat) : Option Nat := l.get? i

/-- `struct.unpack("<H", l[i:i+2])`: fails unless the slice has exactly
2 bytes, i.e. unless `i + 2 ≤ l.length`. -/
def readU16 (l : ByteBuf) (i : Nat) : Option Nat :=
  if i + 2 ≤ l.length then some (u16At l i) else none

/-- `struct.unpack("<I", l[i:i+4])`. -/
def readU32 (l : ByteBuf) (i : Nat) : Option Nat :=
  if i + 4 ≤ l.length then some (u32At l i) else none

/-- `struct.unpack("<b", l[i:i+1])`. -/
def readI8 (l : ByteBuf) (i : Nat) : Option Int :=
  if i + 1 ≤ l.length then some (i8At l i) else none

/-- `struct.unpack("<h", l[i:i+2])`. -/
def readI16 (l : ByteBuf) (i : Nat) : Option Int :=
  if i + 2 ≤ l.length then some (i16At l i) else none

/-- `struct.unpack("<f", l[i:i+4])`, value kept as raw bit pattern. -/
def readF32 (l : ByteBuf) (i : Nat) : Option Nat :=
  if i + 4 ≤ l.length then some (u32At l i) else none

/-- `struct.unpack("<d", l[i:i+8])`, value kept as raw bit pattern. -/
def readF64 (l : ByteBuf) (i : Nat) : Option Nat :=
  if i + 8 ≤ l.length then some (u64At l i) else none

/-- `struct.unpack("<4H", l[i:i+8])`. -/
def read4U16 (l : ByteBuf) (i : Nat) : Option (Nat × Nat × Nat × Nat) :=
  if i + 8 ≤ l.length then
    some (u16At l i, u16At l (i+2), u16At l (i+4), u16At l (i+6))
  else none

/-- `struct.unpack("<4B", l[i:i+4])`. -/
def read4U8 (l : ByteBuf) (i : Nat) : Option (Nat × Nat × Nat × Nat) :=
  if i + 4 ≤ l.length then
    some (l.getD i 0, l.getD (i+1) 0, l.getD (i+2) 0, l.getD (i+3) 0)
  else none

/-- `struct.unpack("<4f", l[i:i+16])`, raw bit patterns. -/
def read4F32 (l : ByteBuf) (i : Nat) : Option (Nat × Nat × Nat × Nat) :=
  if i + 16 ≤ l.length then
    some (u32At l i, u32At l (i+4), u32At l (i+8), u32At l (i+12))
  else none

/-- `struct.unpack("<3f", l[i:i+12])`, raw bit patterns. -/
def read3F32 (l : ByteBuf) (i : Nat) : Option (Nat × Nat × Nat) :=
  if i + 12 ≤ l.length then
    some (u32At l i, u32At l (i+4), u32At l (i+8))
  else none

/-- `struct.unpack("<3h", l[i:i+6])`. -/
def read3I16 (l : ByteBuf) (i : Nat) : Option (Int × Int × Int) :=
  if i + 6 ≤ l.length then
    some (i16At l i, i16At l (i+2), i16At l (i+4))
  else none

/-! ## Protocol enums (`packets.py`) -/

/-- `PacketType` enum: the 15 known packet kinds. -/
inductive PacketType where
  | MOTION | SESSION | LAP_DATA | EVENT | PARTICIPANTS | CAR_SETUPS
  | CAR_TELEMETRY | CAR_STATUS | FINAL_CLASSIFICATION | LOBBY_INFO
  | CAR_DAMAGE | SESSION_HISTORY | TYRE_SETS | MOTION_EX | TIME_TRIAL
deriving DecidableEq, Repr

/-- An enum-typed field in Python holds either a coerced enum member or,
out of range, the raw integer (`Weather(w) if w <= 5 else w`, etc.). -/
inductive EnumOr (α : Type) where
  | known : α → EnumOr α
  | raw : Int → EnumOr α
deriving DecidableEq, Repr

/-- `PacketType(t)` for `t ≤ 14` (the catch-all branch is unreachable
under that guard; 14 itself maps to TIME_TRIAL). -/
def packetTypeOfNat (t : Nat) : PacketType :=
  match t with
  | 0 => .MOTION | 1 => .SESSION | 2 => .LAP_DATA | 3 => .EVENT
  | 4 => .PARTICIPANTS | 5 => .CAR_SETUPS | 6 => .CAR_TELEMETRY
  | 7 => .CAR_STATUS | 8 => .FINAL_CLASSIFICATION | 9 => .LOBBY_INFO
  | 10 => .CAR_DAMAGE | 11 => .SESSION_HISTORY | 12 => .TYRE_SETS
  | 13 => .MOTION_EX | _ => .TIME_TRIAL

inductive Weather where
  | CLEAR | LIGHT_CLOUD | OVERCAST | LIGHT_RAIN | HEAVY_RAIN | STORM
deriving DecidableEq, Repr

/-- `Weather(w)` for `w ≤ 5`. -/
def weatherOfNat (w : Nat) : Weather :=
  match w with
  | 0 => .CLEAR | 1 => .LIGHT_CLOUD | 2 => .OVERCAST | 3 => .LIGHT_RAIN
  | 4 => .HEAVY_RAIN | _ => .STORM

inductive SessionType where
  | UNKNOWN | P1 | P2 | P3 | SHORT_P | Q1 | Q2 | Q3 | SHORT_Q | OSQ
  | RACE | RACE_2 | RACE_3 | TIME_TRIAL
deriving DecidableEq, Repr

/-- `SessionType(s)` for `s ≤ 13`. -/
def sessionTypeOfNat (s : Nat) : SessionType :=
  match s with
  | 0 => .UNKNOWN | 1 => .P1 | 2 => .P2 | 3 => .P3 | 4 => .SHORT_P
  | 5 => .Q1 | 6 => .Q2 | 7 => .Q3 | 8 => .SHORT_Q | 9 => .OSQ
  | 10 => .RACE | 11 => .RACE_2 | 12 => .RACE_3 | _ => .TIME_TRIAL

inductive Track where
  | MELBOURNE | PAUL_RICARD | SHANGHAI | BAHRAIN | CATALUNYA | MONACO
  | MONTREAL | SILVERSTONE | HOCKENHEIM | HUNGARORING | SPA | MONZA
  | SINGAPORE | SUZUKA | ABU_DHABI | TEXAS | BRAZIL | AUSTRIA | SOCHI
  | MEXICO | BAKU | BAHRAIN_SHORT | SILVERSTONE_SHORT | TEXAS_SHORT
  | SUZUKA_SHORT | HANOI | ZANDVOORT | IMOLA | PORTIMAO | JEDDAH
  | MIAMI | LAS_VEGAS | LOSAIL
deriving DecidableEq, Repr

/-- `Track(t)` for `0 ≤ t ≤ 32`. -/
def trackOfNat (t : Nat) : Track :=
  match t with
  | 0 => .MELBOURNE | 1 => .PAUL_RICARD | 2 => .SHANGHAI | 3 => .BAHRAIN
  | 4 => .CATALUNYA | 5 => .MONACO | 6 => .MONTREAL | 7 => .SILVERSTONE
  | 8 => .HOCKENHEIM | 9 => .HUNGARORING | 10 => .SPA | 11 => .MONZA
  | 12 => .SINGAPORE | 13 => .SUZUKA | 14 => .ABU_DHABI | 15 => .TEXAS
  | 16 => .BRAZIL | 17 => .AUSTRIA | 18 => .SOCHI | 19 => .MEXICO
  | 20 => .BAKU | 21 => .BAHRAIN_SHORT | 22 => .SILVERSTONE_SHORT
  | 23 => .TEXAS_SHORT | 24 => .SUZUKA_SHORT | 25 => .HANOI
  | 26 => .ZANDVOORT | 27 => .IMOLA | 28 => .PORTIMAO | 29 => .JEDDAH
  | 30 => .MIAMI | 31 => .LAS_VEGAS | _ => .LOSAIL

inductive TyreCompound where
  | SOFT | MEDIUM | HARD | INTER | WET
deriving DecidableEq, Repr

/-- `TyreCompound(c)` for `c ∈ (7, 8, 16, 17, 18)`. -/
def tyreCompoundOfNat (c : Nat) : TyreCompound :=
  match c with
  | 16 => .SOFT | 17 => .MEDIUM | 18 => .HARD | 7 => .INTER | _ => .WET

inductive FuelMix where
  | LEAN_MIX | STANDARD | RICH | MAX
deriving DecidableEq, Repr

/-- `FuelMix(m)` for `m ≤ 3` (member 0 is called LEAN in the source; the
name is adjusted here to avoid clashing with the Lean keyword namespace). -/
def fuelMixOfNat (m : Nat) : FuelMix :=
  match m with
  | 0 => .LEAN_MIX | 1 => .STANDARD | 2 => .RICH | _ => .MAX

inductive ERSMode where
  | NONE | MEDIUM | HOTLAP | OVERTAKE
deriving DecidableEq, Repr

/-- `ERSMode(m)` for `m ≤ 3`. -/
def ersModeOfNat (m : Nat) : ERSMode :=
  match m with
  | 0 => .NONE | 1 => .MEDIUM | 2 => .HOTLAP | _ => .OVERTAKE

inductive VehicleFlag where
  | NONE | GREEN | BLUE | YELLOW | RED
deriving DecidableEq, Repr

/-- `VehicleFlag(f)` for `f ≤ 4`. -/
def vehicleFlagOfNat (f : Nat) : VehicleFlag :=
  match f with
  | 0 => .NONE | 1 => .GREEN | 2 => .BLUE | 3 => .YELLOW | _ => .RED

inductive PitStatus where
  | NONE | PITTING | IN_PIT_AREA
deriving DecidableEq, Repr

/-- `PitStatus(p)` for `p ≤ 2`. -/
def pitStatusOfNat (p : Nat) : PitStatus :=
  match p with
  | 0 => .NONE | 1 => .PITTING | _ => .IN_PIT_AREA

inductive Team where
  | MERCEDES | FERRARI | RED_BULL | WILLIAMS | ASTON_MARTIN | ALPINE
  | ALPHA_TAURI | HAAS | MCLAREN | ALFA_ROMEO
deriving DecidableEq, Repr

/-- `Team(t)` for `t ≤ 9`. -/
def teamOfNat (t : Nat) : Team :=
  match t with
  | 0 => .MERCEDES | 1 => .FERRARI | 2 => .RED_BULL | 3 => .WILLIAMS
  | 4 => .ASTON_MARTIN | 5 => .ALPINE | 6 => .ALPHA_TAURI | 7 => .HAAS
  | 8 => .MCLAREN | _ => .ALFA_ROMEO

/-! ## Helper dataclasses -/

/-- `TyreData`: per-wheel 4-tuple in the fixed order (RL, RR, FL, FR). -/
structure TyreData (α : Type) where
  rear_left : α
  rear_right : α
  front_left : α
  front_right : α
deriving DecidableEq, Repr

/-- `Vector3`. -/
structure Vector3 (α : Type) where
  x : α
  y : α
  z : α
deriving DecidableEq, Repr

/-! ## Packet header -/

/-- `PacketHeader` (29-byte fixed prefix).  `session_time` is an f32 kept
as its raw bit pattern. -/
structure PacketHeader where
  packet_format : Nat
  game_year : Nat
  game_major_version : Nat
  game_minor_version : Nat
  packet_version : Nat
  packet_type : EnumOr PacketType
  session_uid : Nat
  session_time : Nat
  frame_identifier : Nat
  overall_frame_identifier : Nat
  player_car_index : Nat
  secondary_player_car_index : Nat
deriving DecidableEq, Repr

/-- `parse_header`: guard `len(data) < 29`, then
`struct.unpack("<HBBBBBQfIIBB", data[:29])`.  On an exactly-29-byte slice
that unpack is total, and `PacketType(u[5])` with `u[5] ≤ 14` never
raises, so the body uses total readers.  Field widths in order:
u16@0, u8@2, u8@3, u8@4, u8@5, u8@6, u64@7, f32@15, u32@19, u32@23,
u8@27, u8@28. -/
def parse_header (data : ByteBuf) : Option PacketHeader :=
  if data.length < 29 then none
  else
    let s := data.take 29
    let t := byteAt s 6
    some {
      packet_format := u16At s 0,
      game_year := byteAt s 2,
      game_major_version := byteAt s 3,
      game_minor_version := byteAt s 4,
      packet_version := byteAt s 5,
      packet_type := if t ≤ 14 then .known (packetTypeOfNat t) else .raw t,
      session_uid := u64At s 7,
      session_time := u32At s 15,
      frame_identifier := u32At s 19,
      overall_frame_identifier := u32At s 23,
      player_car_index := byteAt s 27,
      secondary_player_car_index := byteAt s 28,
    }

/-! ## Packet body records (`packets.py`) and parsers (`client.py`).
Float-typed dataclass fields hold raw IEEE bit patterns (`Nat`), except
the normalized direction vectors of `CarMotion`, which are `ℚ`. -/

/-- `LapData` dataclass. -/
structure LapData where
  last_lap_time_ms : Nat
  current_lap_time_ms : Nat
  sector1_time_ms : Nat
  sector2_time_ms : Nat
  delta_to_car_in_front_ms : Nat
  delta_to_race_leader_ms : Nat
  lap_distance : Nat
  total_distance : Nat
  safety_car_delta : Nat
  position : Nat
  current_lap : Nat
  pit_status : EnumOr PitStatus
  num_pit_stops : Nat
  sector : Nat
  current_lap_invalid : Bool
  penalties : Nat
  total_warnings : Nat
  corner_cutting_warnings : Nat
  num_unserved_drive_through : Nat
  num_unserved_stop_go : Nat
  grid_position : Nat
  driver_status : Nat
  result_status : Nat
  pit_lane_timer_active : Bool
  pit_lane_time_in_lane_ms : Nat
  pit_stop_timer_ms : Nat
  pit_stop_should_serve_penalty : Bool
deriving DecidableEq, Repr

/-- `parse_lap_data(data, car_index)`: 57-byte record at
`29 + car_index * 57`.  The car index is NOT range-checked; only the
length guard filters inputs, and `data[offset:offset+57]` has Python
slice semantics (relevant for negative indices). -/
def parse_lap_data (data : ByteBuf) (car_index : Int) : Option LapData :=
  let header_size : Int := 29
  let lap_size : Int := 57
  let offset := header_size + car_index * lap_size
  if (data.length : Int) < offset + lap_size then none
  else
    let d := pySlice data offset (offset + lap_size)
    -- the `try` block: every unpack/index is attempted on `d`; the first
    -- failure aborts with None (reads are pure, so attempting them all
    -- and branching is the same function)
    match readU32 d 0, readU32 d 4, readU16 d 8, getByte d 10,
      readU16 d 11, getByte d 13, readU16 d 14, readU16 d 16,
      readF32 d 18, readF32 d 22, readF32 d 26, getByte d 30,
      getByte d 31, getByte d 32, getByte d 33, getByte d 34,
      getByte d 35, getByte d 36, getByte d 37, getByte d 38,
      getByte d 39, getByte d 40, getByte d 41, getByte d 42,
      getByte d 43, getByte d 44, readU16 d 45, readU16 d 47,
      getByte d 49 with
  | some last_lap_ms, some current_lap_ms, some sector1_ms,
    some sector1_mins, some sector2_ms, some sector2_mins,
    some delta_in_front, some delta_leader, some lap_distance,
    some total_distance, some safety_car_delta, some position,
    some current_lap, some pit_status, some num_pit_stops, some sector,
    some current_lap_invalid, some penalties, some total_warnings,
    some corner_cutting, some num_dt, some num_sg, some grid_position,
    some driver_status, some result_status, some pit_timer_active,
    some pit_time_in_lane, some pit_stop_timer, some pit_serve_penalty =>
    some {
      last_lap_time_ms := last_lap_ms,
      current_lap_time_ms := current_lap_ms,
      sector1_time_ms := sector1_ms + sector1_mins * 60000,
      sector2_time_ms := sector2_ms + sector2_mins * 60000,
      delta_to_car_in_front_ms := delta_in_front,
      delta_to_race_leader_ms := delta_leader,
      lap_distance := lap_distance,
      total_distance := total_distance,
      safety_car_delta := safety_car_delta,
      position := position,
      current_lap := current_lap,
      pit_status :=
        if pit_status ≤ 2 then .known (pitStatusOfNat pit_status)
        else .raw pit_status,
      num_pit_stops := num_pit_stops,
      sector := sector,
      current_lap_invalid := current_lap_invalid != 0,
      penalties := penalties,
      total_warnings := total_warnings,
      corner_cutting_warnings := corner_cutting,
      num_unserved_drive_through := num_dt,
      num_unserved_stop_go := num_sg,
      grid_position := grid_position,
      driver_status := driver_status,
      result_status := result_status,
      pit_lane_timer_active := pit_timer_active != 0,
      pit_lane_time_in_lane_ms := pit_time_in_lane,
      pit_stop_timer_ms := pit_stop_timer,
      pit_stop_should_serve_penalty := pit_serve_penalty != 0,
    }
  | _, _, _, _, _, _, _, _, _, _, _, _, _, _, _, _, _, _, _, _, _, _, _,
    _, _, _, _, _, _ => none

/-- `CarTelemetry` dataclass. -/
structure CarTelemetry where
  speed : Nat
  throttle : Nat
  steer : Nat
  brake : Nat
  clutch : Nat
  gear : Int
  engine_rpm : Nat
  drs : Bool
  rev_lights_percent : Nat
  rev_lights_bit_value : Nat
  brake_temperature : TyreData Nat
  tyre_surface_temperature : TyreData Nat
  tyre_inner_temperature : TyreData Nat
  engine_temperature : Nat
  tyre_pressure : TyreData Nat
  surface_type : Nat × Nat × Nat × Nat
deriving DecidableEq, Repr

/-- `parse_car_telemetry(data, car_index)`: 60-byte record at
`29 + car_index * 60`; no car-index range check. -/
def parse_car_telemetry (data : ByteBuf) (car_index : Int) :
    Option CarTelemetry :=
  let header_size : Int := 29
  let telemetry_size : Int := 60
  let offset := header_size + car_index * telemetry_size
  if (data.length : Int) < offset + telemetry_size then none
  else
    let d := pySlice data offset (offset + telemetry_size)
    match readU16 d 0, readF32 d 2, readF32 d 6, readF32 d 10,
      getByte d 14, readI8 d 15, readU16 d 16, getByte d 18,
      getByte d 19, readU16 d 20, read4U16 d 22, read4U8 d 30,
      read4U8 d 34, readU16 d 38, read4F32 d 40, read4U8 d 56 with
  | some speed, some throttle, some steer, some brake, some clutch,
    some gear, some rpm, some drs, some rev_lights, some rev_lights_bit,
    some brake_temp, some tyre_surface, some tyre_inner, some engine_temp,
    some tyre_pressure, some surface_type =>
    some {
      speed := speed,
      throttle := throttle,
      steer := steer,
      brake := brake,
      clutch := clutch,
      gear := gear,
      engine_rpm := rpm,
      drs := drs != 0,
      rev_lights_percent := rev_lights,
      rev_lights_bit_value := rev_lights_bit,
      brake_temperature :=
        ⟨brake_temp.1, brake_temp.2.1, brake_temp.2.2.1, brake_temp.2.2.2⟩,
      tyre_surface_temperature :=
        ⟨tyre_surface.1, tyre_surface.2.1, tyre_surface.2.2.1,
          tyre_surface.2.2.2⟩,
      tyre_inner_temperature :=
        ⟨tyre_inner.1, tyre_inner.2.1, tyre_inner.2.2.1, tyre_inner.2.2.2⟩,
      engine_temperature := engine_temp,
      tyre_pressure :=
        ⟨tyre_pressure.1, tyre_pressure.2.1, tyre_pressure.2.2.1,
          tyre_pressure.2.2.2⟩,
      surface_type := surface_type,
    }
  | _, _, _, _, _, _, _, _, _, _, _, _, _, _, _, _ => none

/-- `CarStatus` dataclass. -/
structure CarStatus where
  traction_control : Nat
  anti_lock_brakes : Bool
  fuel_mix : EnumOr FuelMix
  front_brake_bias : Nat
  pit_limiter : Bool
  fuel_remaining : Nat
  fuel_capacity : Nat
  fuel_remaining_laps : Nat
  max_rpm : Nat
  idle_rpm : Nat
  max_gears : Nat
  drs_allowed : Bool
  drs_activation_distance : Nat
  actual_tyre_compound : EnumOr TyreCompound
  visual_tyre_compound : Nat
  tyre_age_laps : Nat
  vehicle_flag : EnumOr VehicleFlag
  engine_power_ice : Nat
  engine_power_mguk : Nat
  ers_store_energy : Nat
  ers_deploy_mode : EnumOr ERSMode
  ers_harvested_this_lap_mguk : Nat
  ers_harvested_this_lap_mguh : Nat
  ers_deployed_this_lap : Nat
  network_paused : Bool
deriving DecidableEq, Repr

/-- `parse_car_status(data, car_index)`: 55-byte record at
`29 + car_index * 55`; no car-index range check.  `engine_power_ice`,
`engine_power_mguk` are hard-coded 0 and `network_paused` False. -/
def parse_car_status (data : ByteBuf) (car_index : Int) :
    Option CarStatus :=
  let header_size : Int := 29
  let status_size : Int := 55
  let offset := header_size + car_index * status_size
  if (data.length : Int) < offset + status_size then none
  else
    let d := pySlice data offset (offset + status_size)
    match getByte d 0, getByte d 1, getByte d 2, getByte d 3, getByte d 4,
      readF32 d 5, readF32 d 9, readF32 d 13, readU16 d 17, readU16 d 19,
      getByte d 21, getByte d 22, readU16 d 23, getByte d 25, getByte d 26,
      getByte d 27, getByte d 28, readF32 d 29, getByte d 33, readF32 d 34,
      readF32 d 38, readF32 d 42 with
  | some tc, some abs_on, some fuel_mix, some brake_bias,
    some pit_limiter, some fuel, some fuel_cap, some fuel_laps,
    some max_rpm, some idle_rpm, some max_gears, some drs_allowed,
    some drs_dist, some tyre_compound, some tyre_visual, some tyre_age,
    some flag, some ers, some ers_mode, some ers_mguk, some ers_mguh,
    some ers_deployed =>
    some {
      traction_control := tc,
      anti_lock_brakes := abs_on != 0,
      fuel_mix :=
        if fuel_mix ≤ 3 then .known (fuelMixOfNat fuel_mix)
        else .raw fuel_mix,
      front_brake_bias := brake_bias,
      pit_limiter := pit_limiter != 0,
      fuel_remaining := fuel,
      fuel_capacity := fuel_cap,
      fuel_remaining_laps := fuel_laps,
      max_rpm := max_rpm,
      idle_rpm := idle_rpm,
      max_gears := max_gears,
      drs_allowed := drs_allowed != 0,
      drs_activation_distance := drs_dist,
      actual_tyre_compound :=
        if tyre_compound = 7 ∨ tyre_compound = 8 ∨ tyre_compound = 16 ∨
            tyre_compound = 17 ∨ tyre_compound = 18 then
          .known (tyreCompoundOfNat tyre_compound)
        else .raw tyre_compound,
      visual_tyre_compound := tyre_visual,
      tyre_age_laps := tyre_age,
      vehicle_flag :=
        if flag ≤ 4 then .known (vehicleFlagOfNat flag) else .raw flag,
      engine_power_ice := 0,
      engine_power_mguk := 0,
      ers_store_energy := ers,
      ers_deploy_mode :=
        if ers_mode ≤ 3 then .known (ersModeOfNat ers_mode)
        else .raw ers_mode,
      ers_harvested_this_lap_mguk := ers_mguk,
      ers_harvested_this_lap_mguh := ers_mguh,
      ers_deployed_this_lap := ers_deployed,
      network_paused := false,
    }
  | _, _, _, _, _, _, _, _, _, _, _, _, _, _, _, _, _, _, _, _, _, _ =>
    none

/-- `CarDamage` dataclass. -/
structure CarDamage where
  tyre_wear : TyreData Nat
  tyre_damage : TyreData Nat
  brakes_damage : TyreData Nat
  front_left_wing_damage : Nat
  front_right_wing_damage : Nat
  rear_wing_damage : Nat
  floor_damage : Nat
  diffuser_damage : Nat
  sidepod_damage : Nat
  drs_fault : Bool
  ers_fault : Bool
  gearbox_damage : Nat
  engine_damage : Nat
  engine_mguh_wear : Nat
  engine_es_wear : Nat
  engine_ce_wear : Nat
  engine_ice_wear : Nat
  engine_mguk_wear : Nat
  engine_tc_wear : Nat
  engine_blown : Bool
  engine_seized : Bool
deriving DecidableEq, Repr

/-- `parse_car_damage(data, car_index)`: 42-byte record at
`29 + car_index * 42`; no car-index range check.  `engine_blown` and
`engine_seized` are hard-coded False. -/
def parse_car_damage (data : ByteBuf) (car_index : Int) :
    Option CarDamage :=
  let header_size : Int := 29
  let damage_size : Int := 42
  let offset := header_size + car_index * damage_size
  if (data.length : Int) < offset + damage_size then none
  else
    let d := pySlice data offset (offset + damage_size)
    match read4F32 d 0, read4U8 d 16, read4U8 d 20, getByte d 24,
      getByte d 25, getByte d 26, getByte d 27, getByte d 28,
      getByte d 29, getByte d 30, getByte d 31, getByte d 32,
      getByte d 33, getByte d 34, getByte d 35, getByte d 36,
      getByte d 37, getByte d 38, getByte d 39 with
  | some tyre_wear, some tyre_damage, some brakes_damage, some fl_wing,
    some fr_wing, some rear_wing, some floor, some diffuser, some sidepod,
    some drs_fault, some ers_fault, some gearbox, some engine, some mguh,
    some es, some ce, some ice, some mguk, some tc =>
    some {
      tyre_wear :=
        ⟨tyre_wear.1, tyre_wear.2.1, tyre_wear.2.2.1, tyre_wear.2.2.2⟩,
      tyre_damage :=
        ⟨tyre_damage.1, tyre_damage.2.1, tyre_damage.2.2.1,
          tyre_damage.2.2.2⟩,
      brakes_damage :=
        ⟨brakes_damage.1, brakes_damage.2.1, brakes_damage.2.2.1,
          brakes_damage.2.2.2⟩,
      front_left_wing_damage := fl_wing,
      front_right_wing_damage := fr_wing,
      rear_wing_damage := rear_wing,
      floor_damage := floor,
      diffuser_damage := diffuser,
      sidepod_damage := sidepod,
      drs_fault := drs_fault != 0,
      ers_fault := ers_fault != 0,
      gearbox_damage := gearbox,
      engine_damage := engine,
      engine_mguh_wear := mguh,
      engine_es_wear := es,
      engine_ce_wear := ce,
      engine_ice_wear := ice,
      engine_mguk_wear := mguk,
      engine_tc_wear := tc,
      engine_blown := false,
      engine_seized := false,
    }
  | _, _, _, _, _, _, _, _, _, _, _, _, _, _, _, _, _, _, _ => none

/-- `CarMotion` dataclass.  `world_position`, `world_velocity` and the
g-force / yaw / pitch / roll fields are f32 raw bit patterns; the two
direction vectors are the only values the decoder computes with (signed
16-bit value divided by 32767.0), modelled exactly over `ℚ`. -/
structure CarMotion where
  world_position : Vector3 Nat
  world_velocity : Vector3 Nat
  world_forward_dir : Vector3 ℚ
  world_right_dir : Vector3 ℚ
  g_force_lateral : Nat
  g_force_longitudinal : Nat
  g_force_vertical : Nat
  yaw : Nat
  pitch : Nat
  roll : Nat
deriving DecidableEq, Repr

/-- `parse_car_motion(data, car_index)`: 60-byte record at
`29 + car_index * 60`; no car-index range check. -/
def parse_car_motion (data : ByteBuf) (car_index : Int) :
    Option CarMotion :=
  let header_size : Int := 29
  let motion_size : Int := 60
  let offset := header_size + car_index * motion_size
  if (data.length : Int) < offset + motion_size then none
  else
    let d := pySlice data offset (offset + motion_size)
    match read3F32 d 0, read3F32 d 12, read3I16 d 24, read3I16 d 30,
      read3F32 d 36, read3F32 d 48 with
  | some pos, some vel, some fwd, some right, some g, some ypr =>
    some {
      world_position := ⟨pos.1, pos.2.1, pos.2.2⟩,
      world_velocity := ⟨vel.1, vel.2.1, vel.2.2⟩,
      world_forward_dir :=
        ⟨(fwd.1 : ℚ) / 32767, (fwd.2.1 : ℚ) / 32767, (fwd.2.2 : ℚ) / 32767⟩,
      world_right_dir :=
        ⟨(right.1 : ℚ) / 32767, (right.2.1 : ℚ) / 32767,
          (right.2.2 : ℚ) / 32767⟩,
      g_force_lateral := g.1,
      g_force_longitudinal := g.2.1,
      g_force_vertical := g.2.2,
      yaw := ypr.1,
      pitch := ypr.2.1,
      roll := ypr.2.2,
    }
  | _, _, _, _, _, _ => none

/-- `CarSetup` dataclass. -/
structure CarSetup where
  front_wing : Nat
  rear_wing : Nat
  on_throttle : Nat
  off_throttle : Nat
  front_camber : Nat
  rear_camber : Nat
  front_toe : Nat
  rear_toe : Nat
  front_suspension : Nat
  rear_suspension : Nat
  front_anti_roll_bar : Nat
  rear_anti_roll_bar : Nat
  front_suspension_height : Nat
  rear_suspension_height : Nat
  brake_pressure : Nat
  brake_bias : Nat
  rear_left_tyre_pressure : Nat
  rear_right_tyre_pressure : Nat
  front_left_tyre_pressure : Nat
  front_right_tyre_pressure : Nat
  ballast : Nat
  fuel_load : Nat
  engine_braking : Nat
deriving DecidableEq, Repr

/-- `parse_car_setup(data, car_index)`: 53-byte record at
`29 + car_index * 53`; no car-index range check.  `engine_braking` is
read conditionally: `d[49] if len(d) > 49 else 0` (a total expression,
modelled by the getD default). -/
def parse_car_setup (data : ByteBuf) (car_index : Int) :
    Option CarSetup :=
  let header_size : Int := 29
  let setup_size : Int := 53
  let offset := header_size + car_index * setup_size
  if (data.length : Int) < offset + setup_size then none
  else
    let d := pySlice data offset (offset + setup_size)
    match getByte d 0, getByte d 1, getByte d 2, getByte d 3, readF32 d 4,
      readF32 d 8, readF32 d 12, readF32 d 16, getByte d 20, getByte d 21,
      getByte d 22, getByte d 23, getByte d 24, getByte d 25,
      getByte d 26, getByte d 27, readF32 d 28, readF32 d 32,
      readF32 d 36, readF32 d 40, getByte d 44, readF32 d 45 with
  | some front_wing, some rear_wing, some on_throttle, some off_throttle,
    some front_camber, some rear_camber, some front_toe, some rear_toe,
    some front_susp, some rear_susp, some front_arb, some rear_arb,
    some front_height, some rear_height, some brake_pressure,
    some brake_bias, some rl_pressure, some rr_pressure, some fl_pressure,
    some fr_pressure, some ballast, some fuel_load =>
    some {
      front_wing := front_wing,
      rear_wing := rear_wing,
      on_throttle := on_throttle,
      off_throttle := off_throttle,
      front_camber := front_camber,
      rear_camber := rear_camber,
      front_toe := front_toe,
      rear_toe := rear_toe,
      front_suspension := front_susp,
      rear_suspension := rear_susp,
      front_anti_roll_bar := front_arb,
      rear_anti_roll_bar := rear_arb,
      front_suspension_height := front_height,
      rear_suspension_height := rear_height,
      brake_pressure := brake_pressure,
      brake_bias := brake_bias,
      rear_left_tyre_pressure := rl_pressure,
      rear_right_tyre_pressure := rr_pressure,
      front_left_tyre_pressure := fl_pressure,
      front_right_tyre_pressure := fr_pressure,
      ballast := ballast,
      fuel_load := fuel_load,
      engine_braking := if 49 < d.length then d.getD 49 0 else 0,
    }
  | _, _, _, _, _, _, _, _, _, _, _, _, _, _, _, _, _, _, _, _, _, _ =>
    none

/-- `MotionEx` dataclass (player car only); all fields f32 raw bits. -/
structure MotionEx where
  suspension_position : TyreData Nat
  suspension_velocity : TyreData Nat
  suspension_acceleration : TyreData Nat
  wheel_speed : TyreData Nat
  wheel_slip_ratio : TyreData Nat
  wheel_slip_angle : TyreData Nat
  wheel_lat_force : TyreData Nat
  wheel_long_force : TyreData Nat
  height_of_cog_above_ground : Nat
  local_velocity : Vector3 Nat
  angular_velocity : Vector3 Nat
  angular_acceleration : Vector3 Nat
  front_wheels_angle : Nat
  wheel_vert_force : TyreData Nat
deriving DecidableEq, Repr

/-- Convert a 4-tuple from an unpack to `TyreData`. -/
def tyre4 (t : Nat × Nat × Nat × Nat) : TyreData Nat :=
  ⟨t.1, t.2.1, t.2.2.1, t.2.2.2⟩

/-- Convert a 3-tuple from an unpack to `Vector3`. -/
def vec3 (t : Nat × Nat × Nat) : Vector3 Nat := ⟨t.1, t.2.1, t.2.2⟩

/-- `parse_motion_ex(data)`: guard `len(data) < 29 + 217`; under it every
read (the furthest ends at body offset 188) is in range, so the body is
total. -/
def parse_motion_ex (data : ByteBuf) : Option MotionEx :=
  if data.length < 29 + 217 then none
  else
    let d := data.drop 29
    some {
      suspension_position := tyre4 (u32At d 0, u32At d 4, u32At d 8, u32At d 12),
      suspension_velocity := tyre4 (u32At d 16, u32At d 20, u32At d 24, u32At d 28),
      suspension_acceleration := tyre4 (u32At d 32, u32At d 36, u32At d 40, u32At d 44),
      wheel_speed := tyre4 (u32At d 48, u32At d 52, u32At d 56, u32At d 60),
      wheel_slip_ratio := tyre4 (u32At d 64, u32At d 68, u32At d 72, u32At d 76),
      wheel_slip_angle := tyre4 (u32At d 80, u32At d 84, u32At d 88, u32At d 92),
      wheel_lat_force := tyre4 (u32At d 96, u32At d 100, u32At d 104, u32At d 108),
      wheel_long_force := tyre4 (u32At d 112, u32At d 116, u32At d 120, u32At d 124),
      height_of_cog_above_ground := u32At d 128,
      local_velocity := vec3 (u32At d 132, u32At d 136, u32At d 140),
      angular_velocity := vec3 (u32At d 144, u32At d 148, u32At d 152),
      angular_acceleration := vec3 (u32At d 156, u32At d 160, u32At d 164),
      front_wheels_angle := u32At d 168,
      wheel_vert_force := tyre4 (u32At d 172, u32At d 176, u32At d 180, u32At d 184),
    }

/-- `ParticipantData` dataclass.  `name` keeps the raw bytes before the
first NUL of `d[7:55]` (the source then UTF-8-decodes with replacement,
which is injective on the comparisons the code ever makes). -/
structure ParticipantData where
  ai_controlled : Bool
  driver_id : Nat
  network_id : Nat
  team : EnumOr Team
  my_team : Bool
  race_number : Nat
  nationality : Nat
  name : List Nat
  telemetry_public : Bool
  show_online_names : Bool
  tech_level : Nat
  platform : Nat
deriving DecidableEq, Repr

/-- `parse_participants(data, car_index)`: 58-byte record at
`29 + 1 + car_index * 58` (one count byte precedes the array); no
car-index range check.  `tech_level` is hard-coded 0. -/
def parse_participants (data : ByteBuf) (car_index : Int) :
    Option ParticipantData :=
  let header_size : Int := 29
  let participant_size : Int := 58
  let offset := header_size + 1 + car_index * participant_size
  if (data.length : Int) < offset + participant_size then none
  else
    let d := pySlice data offset (offset + participant_size)
    match getByte d 0, getByte d 1, getByte d 2, getByte d 3, getByte d 4,
      getByte d 5, getByte d 6, getByte d 55, getByte d 56,
      getByte d 57 with
  | some ai, some driver_id, some network_id, some team_id, some my_team,
    some race_number, some nationality, some telemetry_public,
    some show_online, some platform =>
    some {
      ai_controlled := ai != 0,
      driver_id := driver_id,
      network_id := network_id,
      team := if team_id ≤ 9 then .known (teamOfNat team_id)
        else .raw team_id,
      my_team := my_team != 0,
      race_number := race_number,
      nationality := nationality,
      name := (((d.drop 7).take 48).takeWhile (fun b => b != 0)),
      telemetry_public := telemetry_public != 0,
      show_online_names := show_online != 0,
      tech_level := 0,
      platform := platform,
    }
  | _, _, _, _, _, _, _, _, _, _ => none

/-- `EventData` dataclass: 4-byte event code (kept as raw bytes) plus
optional shape-specific fields, all defaulting to 0 exactly as in the
Python dataclass (`lap_time`/`speed` default 0.0, whose f32 bit pattern
is 0). -/
structure EventData where
  event_code : List Nat
  vehicle_index : Nat := 0
  lap_time : Nat := 0
  speed : Nat := 0
  penalty_type : Nat := 0
  infringement_type : Nat := 0
  other_vehicle_index : Nat := 0
  time : Nat := 0
  lap_num : Nat := 0
  places_gained : Nat := 0
deriving DecidableEq, Repr

/-- Event code constant `FASTEST_LAP = "FTLP"` (ASCII bytes). -/
def EventData.FASTEST_LAP : List Nat := [70, 84, 76, 80]

/-- Event code constant `RETIREMENT = "RTMT"`. -/
def EventData.RETIREMENT : List Nat := [82, 84, 77, 84]

/-- Event code constant `TEAM_MATE_IN_PITS = "TMPT"`. -/
def EventData.TEAM_MATE_IN_PITS : List Nat := [84, 77, 80, 84]

/-- Event code constant `RACE_WINNER = "RCWN"`. -/
def EventData.RACE_WINNER : List Nat := [82, 67, 87, 78]

/-- Event code constant `PENALTY_ISSUED = "PNAL"`. -/
def EventData.PENALTY_ISSUED : List Nat := [80, 78, 65, 76]

/-- Event code constant `SPEED_TRAP = "SPTP"`. -/
def EventData.SPEED_TRAP : List Nat := [83, 80, 84, 80]

/-- Event code constant `OVERTAKE = "OVTK"`. -/
def EventData.OVERTAKE : List Nat := [79, 86, 84, 75]

/-- `parse_event(data)`: guard `len(data) < 29 + 4`.  The code is
`d[0:4]` decoded with replacement (kept as raw bytes here: UTF-8 decoding
is injective, and replacement characters never equal the ASCII constants
compared against).  Each shape branch is guarded by a length test, so
every read in the taken branch is in range and the body is total: a
truncated detail payload simply leaves the default-0 fields. -/
def parse_event (data : ByteBuf) : Option EventData :=
  if data.length < 29 + 4 then none
  else
    let d := data.drop 29
    let event_code := d.take 4
    let details := d.drop 4
    some (
      if event_code = EventData.FASTEST_LAP ∧ 5 ≤ details.length then
        { event_code := event_code,
          vehicle_index := details.getD 0 0,
          lap_time := u32At details 1 }
      else if (event_code = EventData.RETIREMENT ∨
          event_code = EventData.TEAM_MATE_IN_PITS ∨
          event_code = EventData.RACE_WINNER) ∧ 1 ≤ details.length then
        { event_code := event_code,
          vehicle_index := details.getD 0 0 }
      else if event_code = EventData.PENALTY_ISSUED ∧ 7 ≤ details.length then
        { event_code := event_code,
          penalty_type := details.getD 0 0,
          infringement_type := details.getD 1 0,
          vehicle_index := details.getD 2 0,
          other_vehicle_index := details.getD 3 0,
          time := details.getD 4 0,
          lap_num := details.getD 5 0,
          places_gained := details.getD 6 0 }
      else if event_code = EventData.SPEED_TRAP ∧ 5 ≤ details.length then
        { event_code := event_code,
          vehicle_index := details.getD 0 0,
          speed := u32At details 1 }
      else if event_code = EventData.OVERTAKE ∧ 2 ≤ details.length then
        { event_code := event_code,
          vehicle_index := details.getD 0 0,
          other_vehicle_index := details.getD 1 0 }
      else { event_code := event_code })

/-- `FinalClassification` dataclass. -/
structure FinalClassification where
  position : Nat
  num_laps : Nat
  grid_position : Nat
  points : Nat
  num_pit_stops : Nat
  result_status : Nat
  best_lap_time : Nat
  total_race_time : Nat
  penalties_time : Nat
  num_penalties : Nat
  num_tyre_stints : Nat
  tyre_stints_actual : List Nat
  tyre_stints_visual : List Nat
deriving DecidableEq, Repr

/-- `parse_final_classification(data, car_index)`: 37-byte record at
`29 + 1 + car_index * 37` (count byte precedes); no car-index range
check. -/
def parse_final_classification (data : ByteBuf) (car_index : Int) :
    Option FinalClassification :=
  let header_size : Int := 29
  let classification_size : Int := 37
  let offset := header_size + 1 + car_index * classification_size
  if (data.length : Int) < offset + classification_size then none
  else
    let d := pySlice data offset (offset + classification_size)
    match getByte d 0, getByte d 1, getByte d 2, getByte d 3, getByte d 4,
      getByte d 5, readF32 d 6, readF64 d 10, getByte d 18, getByte d 19,
      getByte d 20 with
  | some position, some num_laps, some grid_position, some points,
    some num_pit_stops, some result_status, some best_lap,
    some total_time, some penalties_time, some num_penalties,
    some num_tyre_stints =>
    some {
      position := position,
      num_laps := num_laps,
      grid_position := grid_position,
      points := points,
      num_pit_stops := num_pit_stops,
      result_status := result_status,
      best_lap_time := best_lap,
      total_race_time := total_time,
      penalties_time := penalties_time,
      num_penalties := num_penalties,
      num_tyre_stints := num_tyre_stints,
      tyre_stints_actual := ((d.drop 21).take 8).take num_tyre_stints,
      tyre_stints_visual := ((d.drop 29).take 8).take num_tyre_stints,
    }
  | _, _, _, _, _, _, _, _, _, _, _ => none

/-- `LobbyInfo` dataclass. -/
structure LobbyInfo where
  ai_controlled : Bool
  team_id : Nat
  nationality : Nat
  name : List Nat
  ready_status : Nat
  tech_level : Nat
deriving DecidableEq, Repr

/-- `parse_lobby_info(data, car_index)`: 55-byte record at
`29 + 1 + car_index * 55` (count byte precedes); no car-index range
check.  `tech_level` is `unpack("<H", d[53:55]) if len(d) >= 55 else 0`
(total conditional). -/
def parse_lobby_info (data : ByteBuf) (car_index : Int) :
    Option LobbyInfo :=
  let header_size : Int := 29
  let lobby_size : Int := 55
  let offset := header_size + 1 + car_index * lobby_size
  if (data.length : Int) < offset + lobby_size then none
  else
    let d := pySlice data offset (offset + lobby_size)
    match getByte d 0, getByte d 1, getByte d 2, getByte d 51 with
  | some ai, some team_id, some nationality, some ready_status =>
    some {
      ai_controlled := ai != 0,
      team_id := team_id,
      nationality := nationality,
      name := (((d.drop 3).take 48).takeWhile (fun b => b != 0)),
      ready_status := ready_status,
      tech_level := if 55 ≤ d.length then u16At d 53 else 0,
    }
  | _, _, _, _ => none

/-- `SessionData` dataclass.  The long tail of fields from
`num_weather_forecast_samples` down is hard-coded to 0/False by the
parser (a known gap in the source). -/
structure SessionData where
  weather : EnumOr Weather
  track_temperature : Int
  air_temperature : Int
  total_laps : Nat
  track_length : Nat
  session_type : EnumOr SessionType
  track : EnumOr Track
  formula : Nat
  session_time_left : Nat
  session_duration : Nat
  pit_speed_limit : Nat
  game_paused : Bool
  is_spectating : Bool
  spectator_car_index : Nat
  sli_pro_support : Bool
  num_marshal_zones : Nat
  safety_car_status : Nat
  network_game : Bool
  num_weather_forecast_samples : Nat
  forecast_accuracy : Nat
  ai_difficulty : Nat
  season_link_identifier : Nat
  weekend_link_identifier : Nat
  session_link_identifier : Nat
  pit_stop_window_ideal_lap : Nat
  pit_stop_window_latest_lap : Nat
  pit_stop_rejoin_position : Nat
  steering_assist : Bool
  braking_assist : Nat
  gearbox_assist : Nat
  pit_assist : Bool
  pit_release_assist : Bool
  ers_assist : Bool
  drs_assist : Bool
  dynamic_racing_line : Nat
  dynamic_racing_line_type : Nat
  game_mode : Nat
  rule_set : Nat
  time_of_day : Nat
  session_length : Nat
deriving DecidableEq, Repr

/-- `parse_session(data)`: guard `len(data) < 29 + 50`; under it all the
fixed reads (offsets 0..18 of the body) are in range, so they are total.
The marshal-zone skip `offset = 19 + 21 * num_marshal_zones` may run past
the buffer; the two trailing fields then default to 0/False instead of
failing. -/
def parse_session (data : ByteBuf) : Option SessionData :=
  if data.length < 29 + 50 then none
  else
    let d := data.drop 29
    let track_id := i8At d 7
    let num_marshal_zones := byteAt d 18
    let offset := 19 + 21 * num_marshal_zones
    some {
      weather := if byteAt d 0 ≤ 5 then .known (weatherOfNat (byteAt d 0))
        else .raw (byteAt d 0),
      track_temperature := i8At d 1,
      air_temperature := i8At d 2,
      total_laps := byteAt d 3,
      track_length := u16At d 4,
      session_type :=
        if byteAt d 6 ≤ 13 then .known (sessionTypeOfNat (byteAt d 6))
        else .raw (byteAt d 6),
      track := if 0 ≤ track_id ∧ track_id ≤ 32 then
          .known (trackOfNat track_id.toNat)
        else .raw track_id,
      formula := byteAt d 8,
      session_time_left := u16At d 9,
      session_duration := u16At d 11,
      pit_speed_limit := byteAt d 13,
      game_paused := byteAt d 14 != 0,
      is_spectating := byteAt d 15 != 0,
      spectator_car_index := byteAt d 16,
      sli_pro_support := byteAt d 17 != 0,
      num_marshal_zones := num_marshal_zones,
      safety_car_status := if offset < d.length then byteAt d offset else 0,
      network_game :=
        if offset + 1 < d.length then byteAt d (offset + 1) != 0
        else false,
      num_weather_forecast_samples := 0,
      forecast_accuracy := 0,
      ai_difficulty := 0,
      season_link_identifier := 0,
      weekend_link_identifier := 0,
      session_link_identifier := 0,
      pit_stop_window_ideal_lap := 0,
      pit_stop_window_latest_lap := 0,
      pit_stop_rejoin_position := 0,
      steering_assist := false,
      braking_assist := 0,
      gearbox_assist := 0,
      pit_assist := false,
      pit_release_assist := false,
      ers_assist := false,
      drs_assist := false,
      dynamic_racing_line := 0,
      dynamic_racing_line_type := 0,
      game_mode := 0,
      rule_set := 0,
      time_of_day := 0,
      session_length := 0,
    }

/-- `LapHistoryItem` dataclass. -/
structure LapHistoryItem where
  lap_time_ms : Nat
  sector1_time_ms : Nat
  sector2_time_ms : Nat
  sector3_time_ms : Nat
  lap_valid : Bool
  sector1_valid : Bool
  sector2_valid : Bool
  sector3_valid : Bool
deriving DecidableEq, Repr

/-- One iteration body of the `parse_session_history` loop: the entry at
body offset `lo` (only evaluated when `lo + 11 ≤ d.length`, so the reads
are total).  Validity flags come from the single flags byte at
`lo + 10`: bit 0 = lap, bits 1-3 = sectors 1-3. -/
def mkLapHistoryItem (d : ByteBuf) (lo : Nat) : LapHistoryItem :=
  let flags := byteAt d (lo + 10)
  { lap_time_ms := u32At d lo,
    sector1_time_ms := u16At d (lo + 4),
    sector2_time_ms := u16At d (lo + 6),
    sector3_time_ms := u16At d (lo + 8),
    lap_valid := flags &&& 1 != 0,
    sector1_valid := flags &&& 2 != 0,
    sector2_valid := flags &&& 4 != 0,
    sector3_valid := flags &&& 8 != 0 }

/-- `for i in range(k)` loop of `parse_session_history`, starting at
iteration `i` with `k` iterations left; `break`s (returns what was
accumulated) once the next 11-byte entry at `7 + i * 11` would run past
the buffer. -/
def lapLoop (d : ByteBuf) : Nat → Nat → List LapHistoryItem
  | 0, _ => []
  | k + 1, i =>
    let lo := 7 + i * 11
    if d.length < lo + 11 then []
    else mkLapHistoryItem d lo :: lapLoop d k (i + 1)

/-- `SessionHistory` dataclass. -/
structure SessionHistory where
  car_index : Nat
  num_laps : Nat
  num_tyre_stints : Nat
  best_lap_time_lap_num : Nat
  best_sector1_lap_num : Nat
  best_sector2_lap_num : Nat
  best_sector3_lap_num : Nat
  lap_history : List LapHistoryItem
deriving DecidableEq, Repr

/-- `parse_session_history(data)`: guard `len(data) < 29 + 7`; under it
the seven leading byte reads are in range, hence total.  The lap count is
clamped to 100 (`range(min(num_laps, 100))`). -/
def parse_session_history (data : ByteBuf) : Option SessionHistory :=
  if data.length < 29 + 7 then none
  else
    let d := data.drop 29
    let num_laps := byteAt d 1
    some {
      car_index := byteAt d 0,
      num_laps := num_laps,
      num_tyre_stints := byteAt d 2,
      best_lap_time_lap_num := byteAt d 3,
      best_sector1_lap_num := byteAt d 4,
      best_sector2_lap_num := byteAt d 5,
      best_sector3_lap_num := byteAt d 6,
      lap_history := lapLoop d (min num_laps 100) 0,
    }

/-- `TyreSetInfo` dataclass. -/
structure TyreSetInfo where
  actual_compound : Nat
  visual_compound : Nat
  wear : Nat
  available : Bool
  recommended_session : Nat
  life_span : Nat
  usable_life : Nat
  lap_delta_time : Int
  fitted : Bool
deriving DecidableEq, Repr

/-- One entry of the `parse_tyre_sets` loop at offset `so` (evaluated
only with `so + 9 ≤ d.length`, so the reads are total).  The source also
computes an unused local `fitted = bool(d[so+2] == 0 and i == fitted_idx)`
which is immediately shadowed by `fitted=(i == fitted_idx)` in the record;
only the latter is observable. -/
def mkTyreSetInfo (d : ByteBuf) (fitted_idx i so : Nat) : TyreSetInfo :=
  { actual_compound := byteAt d so,
    visual_compound := byteAt d (so + 1),
    wear := byteAt d (so + 2),
    available := byteAt d (so + 3) != 0,
    recommended_session := byteAt d (so + 4),
    life_span := byteAt d (so + 5),
    usable_life := byteAt d (so + 6),
    lap_delta_time := i16At d (so + 7),
    fitted := i == fitted_idx }

/-- `for i in range(20)` loop of `parse_tyre_sets`. -/
def tyreLoop (d : ByteBuf) (fitted_idx : Nat) : Nat → Nat → List TyreSetInfo
  | 0, _ => []
  | k + 1, i =>
    let so := 3 + i * 9
    if d.length < so + 9 then []
    else mkTyreSetInfo d fitted_idx i so :: tyreLoop d fitted_idx k (i + 1)

/-- `TyreSetData` dataclass. -/
structure TyreSetData where
  car_index : Nat
  tyre_sets : List TyreSetInfo
  fitted_index : Nat
deriving DecidableEq, Repr

/-- `parse_tyre_sets(data)`: guard `len(data) < 29 + 3`; `fitted_idx` is
`d[2] if len(d) > 2 else 255` (total conditional; always the byte under
the guard). -/
def parse_tyre_sets (data : ByteBuf) : Option TyreSetData :=
  if data.length < 29 + 3 then none
  else
    let d := data.drop 29
    let fitted_idx := if 2 < d.length then byteAt d 2 else 255
    some {
      car_index := byteAt d 0,
      tyre_sets := tyreLoop d fitted_idx 20 0,
      fitted_index := fitted_idx,
    }

/-- `TimeTrialDataSet` dataclass. -/
structure TimeTrialDataSet where
  car_index : Nat
  team_id : Nat
  lap_time_ms : Nat
  sector1_time_ms : Nat
  sector2_time_ms : Nat
  sector3_time_ms : Nat
  traction_control : Nat
  gearbox_assist : Nat
  anti_lock_brakes : Bool
  equal_car_performance : Bool
  custom_setup : Bool
  valid : Bool
deriving DecidableEq, Repr

/-- `_parse_time_trial_dataset(d)` (leading underscore dropped for Lean):
explicit `len(d) < 24` check, then total reads up to offset 23. -/
def parse_time_trial_dataset (d : ByteBuf) : Option TimeTrialDataSet :=
  if d.length < 24 then none
  else
    some {
      car_index := byteAt d 0,
      team_id := byteAt d 1,
      lap_time_ms := u32At d 2,
      sector1_time_ms := u32At d 6,
      sector2_time_ms := u32At d 10,
      sector3_time_ms := u32At d 14,
      traction_control := byteAt d 18,
      gearbox_assist := byteAt d 19,
      anti_lock_brakes := byteAt d 20 != 0,
      equal_car_performance := byteAt d 21 != 0,
      custom_setup := byteAt d 22 != 0,
      valid := byteAt d 23 != 0,
    }

/-- `TimeTrial` dataclass. -/
structure TimeTrial where
  player_session_best : TimeTrialDataSet
  personal_best : TimeTrialDataSet
  rival : TimeTrialDataSet
deriving DecidableEq, Repr

/-- `parse_time_trial(data)`: guard `len(data) < 29 + 72`; the three
24-byte sub-decodes must all succeed (`if not all(...): return None`). -/
def parse_time_trial (data : ByteBuf) : Option TimeTrial :=
  if data.length < 29 + 72 then none
  else
    let d := data.drop 29
    match parse_time_trial_dataset (d.take 24),
      parse_time_trial_dataset ((d.drop 24).take 24),
      parse_time_trial_dataset ((d.drop 48).take 24) with
  | some player_best, some personal_best, some rival =>
    some {
      player_session_best := player_best,
      personal_best := personal_best,
      rival := rival,
    }
  | _, _, _ => none

/-! ## Dispatcher (`f1_dispatcher/dispatcher.py`)

A registered handler is an opaque callable; the model records an
identifier and whether calling it raises.  `_process_packet` wraps each
call in `try ... except Exception: pass`, so a raising handler is
recorded (with `raised = true`) and the loop continues. -/

/-- An opaque registered callable. -/
structure Handler where
  hid : Nat
  raises : Bool
deriving DecidableEq, Repr

/-- `self._handlers`: `defaultdict(list)` keyed by packet type.  Raw
(unknown, > 14) type codes are rejected by `_process_packet` before the
lookup, so only `PacketType` keys are ever consulted. -/
def HandlerTable := PacketType → List Handler

/-- Fresh dispatcher: no handlers registered. -/
def emptyHandlers : HandlerTable := fun _ => []

/-- `F1Dispatcher.on(packet_type, handler)` (direct-call form): appends
to the per-type list. -/
def F1Dispatcher.on (tbl : HandlerTable) (packet_type : PacketType)
    (handler : Handler) : HandlerTable :=
  fun q => if q = packet_type then tbl q ++ [handler] else tbl q

/-- The union of the 15 body record types: what `_PARSERS` can produce. -/
inductive ParsedBody where
  | motion : CarMotion → ParsedBody
  | session : SessionData → ParsedBody
  | lapData : LapData → ParsedBody
  | event : EventData → ParsedBody
  | participants : ParticipantData → ParsedBody
  | carSetups : CarSetup → ParsedBody
  | carTelemetry : CarTelemetry → ParsedBody
  | carStatus : CarStatus → ParsedBody
  | finalClassification : FinalClassification → ParsedBody
  | lobbyInfo : LobbyInfo → ParsedBody
  | carDamage : CarDamage → ParsedBody
  | sessionHistory : SessionHistory → ParsedBody
  | tyreSets : TyreSetData → ParsedBody
  | motionEx : MotionEx → ParsedBody
  | timeTrial : TimeTrial → ParsedBody
deriving DecidableEq, Repr

/-- The `_PARSERS` table: parser and needs-car-index flag per type.
Car-indexed parsers receive `header.player_car_index`. -/
def runParser (pt : PacketType) (data : ByteBuf) (car_index : Nat) :
    Option ParsedBody :=
  match pt with
  | .MOTION => (parse_car_motion data car_index).map .motion
  | .SESSION => (parse_session data).map .session
  | .LAP_DATA => (parse_lap_data data car_index).map .lapData
  | .EVENT => (parse_event data).map .event
  | .PARTICIPANTS => (parse_participants data car_index).map .participants
  | .CAR_SETUPS => (parse_car_setup data car_index).map .carSetups
  | .CAR_TELEMETRY => (parse_car_telemetry data car_index).map .carTelemetry
  | .CAR_STATUS => (parse_car_status data car_index).map .carStatus
  | .FINAL_CLASSIFICATION =>
    (parse_final_classification data car_index).map .finalClassification
  | .LOBBY_INFO => (parse_lobby_info data car_index).map .lobbyInfo
  | .CAR_DAMAGE => (parse_car_damage data car_index).map .carDamage
  | .SESSION_HISTORY => (parse_session_history data).map .sessionHistory
  | .TYRE_SETS => (parse_tyre_sets data).map .tyreSets
  | .MOTION_EX => (parse_motion_ex data).map .motionEx
  | .TIME_TRIAL => (parse_time_trial data).map .timeTrial

/-- One attempted handler call, as observed by the dispatch loop:
`raised` records that the callable threw (and was caught). -/
structure Invocation where
  hid : Nat
  raised : Bool
  header : PacketHeader
  body : ParsedBody
deriving DecidableEq, Repr

/-- Observable outcome of `_process_packet`: the handler calls made, and
how many body-parser invocations were performed. -/
structure ProcessTrace where
  invocations : List Invocation
  body_decodes : Nat
deriving DecidableEq, Repr

/-- The `for handler in handlers: try: handler(header, parsed) except:
pass` loop: every handler is called once, in list order, with the same
`(header, body)` pair; a raise is caught and does not stop the loop. -/
def invokeAll (header : PacketHeader) (body : ParsedBody)
    (hs : List Handler) : List Invocation :=
  hs.map fun h => ⟨h.hid, h.raises, header, body⟩

/-- `F1Dispatcher._process_packet(data)`.  Drops silently when: the
header fails to decode; the type is not a `_PARSERS` key (every raw code
> 14 — all 15 `PacketType` members are keys, and `parse_header` only
leaves raw codes above 14); no handlers are registered; or the body
decode fails.  Otherwise all registered handlers run in order.  The model
is a total function: no exception escapes. -/
def processPacket (tbl : HandlerTable) (data : ByteBuf) : ProcessTrace :=
  match parse_header data with
  | none => ⟨[], 0⟩
  | some header =>
    match header.packet_type with
    | .raw _ => ⟨[], 0⟩
    | .known pt =>
      match tbl pt with
      | [] => ⟨[], 0⟩
      | h :: hs =>
        match runParser pt data header.player_car_index with
        | none => ⟨[], 1⟩
        | some body => ⟨invokeAll header body (h :: hs), 1⟩

/-- One observable event of the `_listen` receive loop. -/
inductive RecvEvent where
  | datagram : ByteBuf → RecvEvent
  | timeout : RecvEvent
  | recvError : RecvEvent
deriving DecidableEq, Repr

/-- `F1Dispatcher._listen` over a finite schedule of receive outcomes:
timeouts loop again, other receive errors are swallowed, datagrams are
processed; the loop never propagates an exception (the model is total). -/
def listenLoop (tbl : HandlerTable) : List RecvEvent → List Invocation
  | [] => []
  | .datagram data :: rest =>
    (processPacket tbl data).invocations ++ listenLoop tbl rest
  | .timeout :: rest => listenLoop tbl rest
  | .recvError :: rest => listenLoop tbl rest

/-! ## Support lemmas about the byte readers and `pySlice` -/

theorem getByte_eq_of_lt {l : ByteBuf} {i : Nat} (h : i < l.length) :
    getByte l i = some (byteAt l i) := by
  unfold getByte byteAt
  cases hx : l.get? i with
  | none =>
    rw [List.get?_eq_none] at hx
    omega
  | some a => simp [List.getD, ← List.get?_eq_getElem?, hx]

theorem readU16_eq_of_le {l : ByteBuf} {i : Nat} (h : i + 2 ≤ l.length) :
    readU16 l i = some (u16At l i) := by simp [readU16, h]

theorem readU32_eq_of_le {l : ByteBuf} {i : Nat} (h : i + 4 ≤ l.length) :
    readU32 l i = some (u32At l i) := by simp [readU32, h]

theorem readI8_eq_of_le {l : ByteBuf} {i : Nat} (h : i + 1 ≤ l.length) :
    readI8 l i = some (i8At l i) := by simp [readI8, h]

theorem readI16_eq_of_le {l : ByteBuf} {i : Nat} (h : i + 2 ≤ l.length) :
    readI16 l i = some (i16At l i) := by simp [readI16, h]

theorem readF32_eq_of_le {l : ByteBuf} {i : Nat} (h : i + 4 ≤ l.length) :
    readF32 l i = some (u32At l i) := by simp [readF32, h]

theorem readF64_eq_of_le {l : ByteBuf} {i : Nat} (h : i + 8 ≤ l.length) :
    readF64 l i = some (u64At l i) := by simp [readF64, h]

theorem read4U16_eq_of_le {l : ByteBuf} {i : Nat} (h : i + 8 ≤ l.length) :
    read4U16 l i =
      some (u16At l i, u16At l (i+2), u16At l (i+4), u16At l (i+6)) := by
  simp [read4U16, h]

theorem read4U8_eq_of_le {l : ByteBuf} {i : Nat} (h : i + 4 ≤ l.length) :
    read4U8 l i =
      some (l.getD i 0, l.getD (i+1) 0, l.getD (i+2) 0, l.getD (i+3) 0) := by
  simp [read4U8, h]

theorem read4F32_eq_of_le {l : ByteBuf} {i : Nat} (h : i + 16 ≤ l.length) :
    read4F32 l i =
      some (u32At l i, u32At l (i+4), u32At l (i+8), u32At l (i+12)) := by
  simp [read4F32, h]

theorem read3F32_eq_of_le {l : ByteBuf} {i : Nat} (h : i + 12 ≤ l.length) :
    read3F32 l i = some (u32At l i, u32At l (i+4), u32At l (i+8)) := by
  simp [read3F32, h]

theorem read3I16_eq_of_le {l : ByteBuf} {i : Nat} (h : i + 6 ≤ l.length) :
    read3I16 l i = some (i16At l i, i16At l (i+2), i16At l (i+4)) := by
  simp [read3I16, h]

/-- An in-bounds nonnegative Python slice is a plain drop-then-take. -/
theorem pySlice_eq_drop_take (l : ByteBuf) (a b : Int) (h0 : 0 ≤ a)
    (hab : a ≤ b) (hb : b ≤ (l.length : Int)) :
    pySlice l a b = (l.drop a.toNat).take (b.toNat - a.toNat) := by
  simp only [pySlice]
  rw [if_neg (by omega), if_neg (by omega), min_eq_left hb,
    min_eq_left (show a ≤ ((l.length : Int)) by omega)]
  congr 1
  omega

/-- Length of an in-bounds nonnegative Python slice. -/
theorem pySlice_length (l : ByteBuf) (a b : Int) (h0 : 0 ≤ a)
    (hab : a ≤ b) (hb : b ≤ (l.length : Int)) :
    (pySlice l a b).length = b.toNat - a.toNat := by
  rw [pySlice_eq_drop_take l a b h0 hab hb]
  simp [List.length_take, List.length_drop]
  omega

/-- Reading inside an in-bounds nonnegative slice reads the underlying
buffer at the shifted offset. -/
theorem pySlice_getD (l : ByteBuf) (a b : Int) (i : Nat) (h0 : 0 ≤ a)
    (hi : (i : Int) < b - a) (hb : b ≤ (l.length : Int)) :
    (pySlice l a b).getD i 0 = l.getD (a.toNat + i) 0 := by
  rw [pySlice_eq_drop_take l a b h0 (by omega) hb]
  have h1 : i < b.toNat - a.toNat := by omega
  have h2 : a.toNat + i < l.length := by omega
  unfold List.getD
  rw [List.get?_eq_getElem?, List.get?_eq_getElem?,
    List.getElem?_take_of_lt h1, List.getElem?_drop,
    List.getElem?_eq_getElem h2]

/-! ## C1: car-index handling of the car-indexed decoders -/

set_option maxRecDepth 40000 in
/-- C1 counterexample: the claim says every car index outside [0, 22)
yields none, but `parse_car_telemetry` performs no range check — car
index 22 with a buffer long enough for a 23rd record (29 + 23·60 = 1409
zero bytes) decodes successfully. -/
theorem parse_car_telemetry_index_22_decodes :
    (parse_car_telemetry (List.replicate 1409 0) 22).isSome = true := by
  decide

/-- C1 (amended): the car-indexed decoders return none whenever the
buffer is too short to contain the targeted car's record — i.e. when
`len(data) < 29 + (car_index + 1) · record_width` — but the car index
itself is never validated against [0, 22). -/
theorem car_parsers_none_of_short_buffer (data : ByteBuf) (ci : Nat) :
    (data.length < 29 + (ci + 1) * 60 →
      parse_car_telemetry data ci = none) ∧
    (data.length < 29 + (ci + 1) * 57 → parse_lap_data data ci = none) ∧
    (data.length < 29 + (ci + 1) * 55 → parse_car_status data ci = none) ∧
    (data.length < 29 + (ci + 1) * 42 → parse_car_damage data ci = none) ∧
    (data.length < 29 + (ci + 1) * 60 → parse_car_motion data ci = none) ∧
    (data.length < 29 + (ci + 1) * 53 → parse_car_setup data ci = none) := by
  refine ⟨fun h => ?_, fun h => ?_, fun h => ?_, fun h => ?_, fun h => ?_,
    fun h => ?_⟩
  · simp only [parse_car_telemetry]
    split
    · rfl
    · omega
  · simp only [parse_lap_data]
    split
    · rfl
    · omega
  · simp only [parse_car_status]
    split
    · rfl
    · omega
  · simp only [parse_car_damage]
    split
    · rfl
    · omega
  · simp only [parse_car_motion]
    split
    · rfl
    · omega
  · simp only [parse_car_setup]
    split
    · rfl
    · omega

theorem car_parsers_none_of_short_buffer_witness :
    parse_car_telemetry [] 22 = none ∧ parse_lap_data [] 22 = none ∧
    parse_car_status [] 22 = none ∧ parse_car_damage [] 22 = none ∧
    parse_car_motion [] 22 = none ∧ parse_car_setup [] 22 = none := by
  have h := car_parsers_none_of_short_buffer [] 22
  exact ⟨h.1 (by decide), h.2.1 (by decide), h.2.2.1 (by decide),
    h.2.2.2.1 (by decide), h.2.2.2.2.1 (by decide),
    h.2.2.2.2.2 (by decide)⟩

/-! ## Header claims -/

/-- C2: for every byte buffer shorter than 29 bytes, `parse_header`
returns none; unpacking the fixed 29-byte layout from a buffer of at
least 29 bytes cannot fail, and the Lean model is a total function, so
no exception is ever thrown. -/
theorem parse_header_none_of_short (data : ByteBuf)
    (h : data.length < 29) : parse_header data = none := by
  simp [parse_header, h]

theorem parse_header_none_of_short_witness :
    parse_header [1, 2, 3, 4, 5] = none :=
  parse_header_none_of_short [1, 2, 3, 4, 5] (by decide)

/-- C3: a buffer of at least 29 bytes whose packet-type byte (byte 6, the
sixth unpacked field) exceeds 14 still decodes to a header, and the type
code is kept verbatim as the raw integer rather than coerced to a
`PacketType` member. -/
theorem parse_header_preserves_raw_packet_type (data : ByteBuf)
    (hlen : 29 ≤ data.length) (hty : 14 < data.getD 6 0) :
    ∃ hdr, parse_header data = some hdr ∧
      hdr.packet_type = .raw (data.getD 6 0) := by
  have hnot : ¬ data.length < 29 := by omega
  have htake : byteAt (data.take 29) 6 = data.getD 6 0 := by
    simp [byteAt, List.getD, List.getElem?_take_of_lt (by omega : 6 < 29)]
  simp only [parse_header, if_neg hnot]
  refine ⟨_, rfl, ?_⟩
  dsimp only
  rw [htake, if_neg (by omega)]

theorem parse_header_preserves_raw_packet_type_witness :
    ∃ hdr, parse_header ((List.replicate 29 0).set 6 200) = some hdr ∧
      hdr.packet_type = .raw (((List.replicate 29 0).set 6 200).getD 6 0) :=
  parse_header_preserves_raw_packet_type _ (by decide) (by decide)

/-! ## Dispatcher claims -/

/-- C4: with exactly two handlers registered (in order `h1`, `h2`) for
CAR_TELEMETRY, processing one datagram whose header decodes to
CAR_TELEMETRY and whose body decode succeeds invokes each handler exactly
once, in registration order, each with the same `(header, body)` pair. -/
theorem dispatch_invokes_both_handlers_in_order (h1 h2 : Handler)
    (data : ByteBuf) (header : PacketHeader) (body : CarTelemetry)
    (hph : parse_header data = some header)
    (hty : header.packet_type = .known .CAR_TELEMETRY)
    (hbody : parse_car_telemetry data header.player_car_index = some body) :
    (processPacket
      (F1Dispatcher.on (F1Dispatcher.on emptyHandlers .CAR_TELEMETRY h1)
        .CAR_TELEMETRY h2) data).invocations =
    [⟨h1.hid, h1.raises, header, .carTelemetry body⟩,
     ⟨h2.hid, h2.raises, header, .carTelemetry body⟩] := by
  have htbl : (F1Dispatcher.on
      (F1Dispatcher.on emptyHandlers .CAR_TELEMETRY h1)
      .CAR_TELEMETRY h2) .CAR_TELEMETRY = [h1, h2] := by
    simp [F1Dispatcher.on, emptyHandlers]
  simp [processPacket, hph, hty, htbl, runParser, hbody, invokeAll]

/-- Concrete datagram for the dispatcher witnesses: a zero header with
packet-type byte 6 (CAR_TELEMETRY) followed by one zero 60-byte record
(the header's `player_car_index` is 0). -/
def carTelemetryDatagram : ByteBuf :=
  (List.replicate 29 0).set 6 6 ++ List.replicate 60 0

/-- The header `carTelemetryDatagram` decodes to. -/
def carTelemetryHeader : PacketHeader :=
  { packet_format := 0, game_year := 0, game_major_version := 0,
    game_minor_version := 0, packet_version := 0,
    packet_type := .known .CAR_TELEMETRY, session_uid := 0,
    session_time := 0, frame_identifier := 0,
    overall_frame_identifier := 0, player_car_index := 0,
    secondary_player_car_index := 0 }

/-- The all-zero car-telemetry body record. -/
def zeroCarTelemetry : CarTelemetry :=
  { speed := 0, throttle := 0, steer := 0, brake := 0, clutch := 0,
    gear := 0, engine_rpm := 0, drs := false, rev_lights_percent := 0,
    rev_lights_bit_value := 0, brake_temperature := ⟨0, 0, 0, 0⟩,
    tyre_surface_temperature := ⟨0, 0, 0, 0⟩,
    tyre_inner_temperature := ⟨0, 0, 0, 0⟩, engine_temperature := 0,
    tyre_pressure := ⟨0, 0, 0, 0⟩, surface_type := (0, 0, 0, 0) }

theorem dispatch_invokes_both_handlers_in_order_witness :
    (processPacket
      (F1Dispatcher.on
        (F1Dispatcher.on emptyHandlers .CAR_TELEMETRY ⟨1, false⟩)
        .CAR_TELEMETRY ⟨2, true⟩) carTelemetryDatagram).invocations =
    [⟨1, false, carTelemetryHeader, .carTelemetry zeroCarTelemetry⟩,
     ⟨2, true, carTelemetryHeader, .carTelemetry zeroCarTelemetry⟩] :=
  dispatch_invokes_both_handlers_in_order ⟨1, false⟩ ⟨2, true⟩
    carTelemetryDatagram carTelemetryHeader zeroCarTelemetry
    (by decide) (by decide) (by decide)

/-- C5: a handler that raises does not prevent later-registered handlers
from being invoked, and no exception escapes the dispatch (the model of
`_process_packet` is a total function; the per-handler `try`/`except`
records the raise and continues).  With the registered list
`pre ++ hraise :: post` where `hraise` raises, every handler — in
particular every member of `post` — is still invoked, in order. -/
theorem dispatch_isolates_raising_handler (tbl : HandlerTable)
    (data : ByteBuf) (header : PacketHeader) (pt : PacketType)
    (body : ParsedBody) (pre post : List Handler) (hraise : Handler)
    (hph : parse_header data = some header)
    (hty : header.packet_type = .known pt)
    (htbl : tbl pt = pre ++ hraise :: post)
    (hr : hraise.raises = true)
    (hbody : runParser pt data header.player_car_index = some body) :
    (processPacket tbl data).invocations =
      invokeAll header body (pre ++ hraise :: post) ∧
    ∀ h ∈ post,
      (⟨h.hid, h.raises, header, body⟩ : Invocation) ∈
        (processPacket tbl data).invocations := by
  obtain ⟨h0, hs0, hcons⟩ :
      ∃ h0 hs0, pre ++ hraise :: post = h0 :: hs0 := by
    cases pre with
    | nil => exact ⟨_, _, rfl⟩
    | cons x xs => exact ⟨_, _, rfl⟩
  have hmain : (processPacket tbl data).invocations =
      invokeAll header body (pre ++ hraise :: post) := by
    rw [hcons]
    simp [processPacket, hph, hty, htbl, hcons, hbody]
  refine ⟨hmain, fun h hmem => ?_⟩
  rw [hmain]
  simp only [invokeAll, List.mem_map]
  exact ⟨h, by simp [hmem], rfl⟩

theorem dispatch_isolates_raising_handler_witness :
    (processPacket
      (F1Dispatcher.on
        (F1Dispatcher.on emptyHandlers .CAR_TELEMETRY ⟨1, true⟩)
        .CAR_TELEMETRY ⟨2, false⟩) carTelemetryDatagram).invocations =
      invokeAll carTelemetryHeader (.carTelemetry zeroCarTelemetry)
        ([] ++ ⟨1, true⟩ :: [⟨2, false⟩]) ∧
    ∀ h ∈ [(⟨2, false⟩ : Handler)],
      (⟨h.hid, h.raises, carTelemetryHeader,
        .carTelemetry zeroCarTelemetry⟩ : Invocation) ∈
        (processPacket
          (F1Dispatcher.on
            (F1Dispatcher.on emptyHandlers .CAR_TELEMETRY ⟨1, true⟩)
            .CAR_TELEMETRY ⟨2, false⟩) carTelemetryDatagram).invocations :=
  dispatch_isolates_raising_handler _ carTelemetryDatagram
    carTelemetryHeader .CAR_TELEMETRY (.carTelemetry zeroCarTelemetry)
    [] [⟨2, false⟩] ⟨1, true⟩ (by decide) (by decide) (by decide)
    (by decide) (by decide)

/-- C6: a datagram whose header decodes but whose packet type is either a
raw (unknown, > 14) code or a known type with no registered handlers is
dropped before any body decode: zero handler invocations, zero parser
calls, and the receive loop completes normally (the `_listen` model is a
total function that swallows errors). -/
theorem dispatch_drops_unknown_or_unhandled (tbl : HandlerTable)
    (data : ByteBuf) (header : PacketHeader)
    (hph : parse_header data = some header)
    (hdrop : (∃ u, header.packet_type = .raw u) ∨
      (∀ pt, header.packet_type = .known pt → tbl pt = [])) :
    processPacket tbl data = ⟨[], 0⟩ ∧
    listenLoop tbl [.datagram data] = [] := by
  have hp : processPacket tbl data = ⟨[], 0⟩ := by
    rcases hdrop with ⟨u, hu⟩ | hnone
    · simp [processPacket, hph, hu]
    · cases hty : header.packet_type with
      | raw u => simp [processPacket, hph, hty]
      | known pt => simp [processPacket, hph, hty, hnone pt hty]
  exact ⟨hp, by simp [listenLoop, hp]⟩

theorem dispatch_drops_unknown_or_unhandled_witness :
    processPacket
      (F1Dispatcher.on emptyHandlers .CAR_TELEMETRY ⟨1, false⟩)
      ((List.replicate 29 0).set 6 15) = ⟨[], 0⟩ ∧
    listenLoop (F1Dispatcher.on emptyHandlers .CAR_TELEMETRY ⟨1, false⟩)
      [.datagram ((List.replicate 29 0).set 6 15)] = [] :=
  dispatch_drops_unknown_or_unhandled _ ((List.replicate 29 0).set 6 15)
    { packet_format := 0, game_year := 0, game_major_version := 0,
      game_minor_version := 0, packet_version := 0,
      packet_type := .raw 15, session_uid := 0, session_time := 0,
      frame_identifier := 0, overall_frame_identifier := 0,
      player_car_index := 0, secondary_player_car_index := 0 }
    (by decide) (.inl ⟨15, by decide⟩)

/-! ## C7: session history clamping and flag bits -/

theorem lapLoop_length_le (d : ByteBuf) (k i : Nat) :
    (lapLoop d k i).length ≤ k := by
  induction k generalizing i with
  | zero => simp [lapLoop]
  | succ k ih =>
    simp only [lapLoop]
    split
    · simp
    · simpa using ih (i + 1)

theorem lapLoop_length_eq (d : ByteBuf) (k i : Nat)
    (h : 7 + (i + k) * 11 ≤ d.length) :
    (lapLoop d k i).length = k := by
  induction k generalizing i with
  | zero => simp [lapLoop]
  | succ k ih =>
    simp only [lapLoop]
    rw [if_neg (by omega)]
    simp only [List.length_cons]
    rw [ih (i + 1) (by omega)]

theorem lapLoop_get? (d : ByteBuf) (k i j : Nat) (e : LapHistoryItem)
    (h : (lapLoop d k i).get? j = some e) :
    e = mkLapHistoryItem d (7 + (i + j) * 11) := by
  induction k generalizing i j with
  | zero => simp [lapLoop] at h
  | succ k ih =>
    simp only [lapLoop] at h
    by_cases hb : d.length < 7 + i * 11 + 11
    · rw [if_pos hb] at h
      simp at h
    · rw [if_neg hb] at h
      cases j with
      | zero =>
        simp at h
        simp [← h]
      | succ j =>
        simp only [List.get?_cons_succ] at h
        have := ih (i + 1) j h
        rw [this]
        congr 1
        ring

/-- The SessionHistory packet carrying `num_laps = 150` and 150 full
11-byte entries (all zero). -/
def sessionHistory150 : ByteBuf :=
  List.replicate 29 0 ++
    0 :: 150 :: 0 :: 0 :: 0 :: 0 :: 0 :: List.replicate 1650 0

/-- C7: (a) every decoded `lap_history` has at most 100 entries — the
lap count is clamped by `range(min(num_laps, 100))`; (b) each entry's
validity flags come from that entry's flags byte (body offset
`7 + i·11 + 10`): bit 0 = lap valid, bits 1, 2, 3 = sectors 1, 2, 3;
(c) concretely, `num_laps = 150` with 150 entries present decodes to
exactly 100 entries. -/
theorem session_history_clamped_and_flag_bits :
    (∀ (data : ByteBuf) (sh : SessionHistory),
      parse_session_history data = some sh →
        sh.lap_history.length ≤ 100) ∧
    (∀ (data : ByteBuf) (sh : SessionHistory) (i : Nat)
        (e : LapHistoryItem),
      parse_session_history data = some sh →
        sh.lap_history.get? i = some e →
        (e.lap_valid = ((data.drop 29).getD (7 + i * 11 + 10) 0 &&& 1 != 0) ∧
         e.sector1_valid =
           ((data.drop 29).getD (7 + i * 11 + 10) 0 &&& 2 != 0) ∧
         e.sector2_valid =
           ((data.drop 29).getD (7 + i * 11 + 10) 0 &&& 4 != 0) ∧
         e.sector3_valid =
           ((data.drop 29).getD (7 + i * 11 + 10) 0 &&& 8 != 0))) ∧
    (∃ sh, parse_session_history sessionHistory150 = some sh ∧
      sh.lap_history.length = 100) := by
  have hinv : ∀ (data : ByteBuf) (sh : SessionHistory),
      parse_session_history data = some sh →
      sh.lap_history =
        lapLoop (data.drop 29) (min (byteAt (data.drop 29) 1) 100) 0 := by
    intro data sh h
    unfold parse_session_history at h
    split at h
    · exact absurd h (by simp)
    · exact (Option.some.inj h).symm ▸ rfl
  refine ⟨?_, ?_, ?_⟩
  · intro data sh h
    rw [hinv data sh h]
    exact le_trans (lapLoop_length_le _ _ _) (min_le_right _ _)
  · intro data sh i e h hget
    rw [hinv data sh h] at hget
    have he := lapLoop_get? _ _ _ _ _ hget
    subst he
    simp [mkLapHistoryItem, byteAt]
  · have hdrop : sessionHistory150.drop 29 =
        0 :: 150 :: 0 :: 0 :: 0 :: 0 :: 0 :: List.replicate 1650 0 := by
      unfold sessionHistory150
      rw [show (29 : Nat) = (List.replicate 29 (0 : Nat)).length by
        rw [List.length_replicate]]
      exact List.drop_left _ _
    have hlen : sessionHistory150.length = 1686 := by
      unfold sessionHistory150
      rw [List.length_append, List.length_replicate]
      simp only [List.length_cons, List.length_replicate]
    have hguard : ¬ sessionHistory150.length < 29 + 7 := by omega
    unfold parse_session_history
    rw [if_neg hguard]
    refine ⟨_, rfl, ?_⟩
    dsimp only
    rw [hdrop]
    have h150 :
        byteAt (0 :: 150 :: 0 :: 0 :: 0 :: 0 :: 0 ::
          List.replicate 1650 (0 : Nat)) 1 = 150 := rfl
    rw [h150]
    have hmin : min 150 100 = 100 := by decide
    rw [hmin]
    refine lapLoop_length_eq _ 100 0 ?_
    simp only [List.length_cons, List.length_replicate]
    omega

/-- A minimal one-lap SessionHistory packet: 29-byte zero header, then a
7-byte preamble with `num_laps = 1` and one zero 11-byte entry. -/
def sessionHistoryOneLap : ByteBuf := (List.replicate 47 0).set 30 1

/-- The record `sessionHistoryOneLap` decodes to. -/
def sessionHistoryOneLapRecord : SessionHistory :=
  { car_index := 0, num_laps := 1, num_tyre_stints := 0,
    best_lap_time_lap_num := 0, best_sector1_lap_num := 0,
    best_sector2_lap_num := 0, best_sector3_lap_num := 0,
    lap_history := [⟨0, 0, 0, 0, false, false, false, false⟩] }

set_option maxRecDepth 5000 in
theorem session_history_clamped_and_flag_bits_witness :
    parse_session_history sessionHistoryOneLap =
      some sessionHistoryOneLapRecord ∧
    sessionHistoryOneLapRecord.lap_history.length ≤ 100 :=
  ⟨by decide,
   session_history_clamped_and_flag_bits.1 sessionHistoryOneLap
     sessionHistoryOneLapRecord (by decide)⟩

/-! ## C8: lap data sector-time recombination -/

/-- C8: on a buffer long enough for the targeted car's 57-byte record,
the decoded sector times recombine the split wire fields as
`total_ms = ms_field + minutes_byte * 60000`: sector 1 from the u16 at
record offset 8 (absolute `29 + ci·57 + 8`) and the minutes byte at
offset 10, sector 2 from the u16 at offset 11 and the minutes byte at
offset 13. -/
theorem lap_data_sector_time_recombination (data : ByteBuf) (ci : Nat)
    (hlen : 29 + (ci + 1) * 57 ≤ data.length) :
    ∃ ld, parse_lap_data data ci = some ld ∧
      ld.sector1_time_ms =
        u16At data (29 + ci * 57 + 8) +
          byteAt data (29 + ci * 57 + 10) * 60000 ∧
      ld.sector2_time_ms =
        u16At data (29 + ci * 57 + 11) +
          byteAt data (29 + ci * 57 + 13) * 60000 := by
  have ha : (0 : Int) ≤ 29 + (ci : Int) * 57 := by omega
  have hb : 29 + (ci : Int) * 57 + 57 ≤ (data.length : Int) := by omega
  simp only [parse_lap_data]
  rw [if_neg (show ¬ ((data.length : Int) < 29 + (ci : Int) * 57 + 57)
    by omega)]
  set D := pySlice data (29 + (ci : Int) * 57) (29 + (ci : Int) * 57 + 57)
    with hDdef
  have hDlen : D.length = 57 := by
    rw [hDdef, pySlice_length data _ _ ha (by omega) hb]
    omega
  have hD : ∀ i, i < 57 → D.getD i 0 = data.getD (29 + ci * 57 + i) 0 := by
    intro i hi
    rw [hDdef, pySlice_getD data _ _ i ha (by omega) hb,
      show (29 + (ci : Int) * 57).toNat + i = 29 + ci * 57 + i by omega]
  have hB : ∀ i, i < 57 → byteAt D i = byteAt data (29 + ci * 57 + i) := by
    intro i hi
    unfold byteAt
    exact hD i hi
  have hU : ∀ i, i + 2 ≤ 57 →
      u16At D i = u16At data (29 + ci * 57 + i) := by
    intro i hi
    unfold u16At
    rw [hD i (by omega), hD (i+1) (by omega),
      show 29 + ci * 57 + (i + 1) = 29 + ci * 57 + i + 1 by omega]
  rw [readU32_eq_of_le (show (0:Nat) + 4 ≤ D.length by omega),
    readU32_eq_of_le (show (4:Nat) + 4 ≤ D.length by omega),
    readU16_eq_of_le (show (8:Nat) + 2 ≤ D.length by omega),
    getByte_eq_of_lt (show (10:Nat) < D.length by omega),
    readU16_eq_of_le (show (11:Nat) + 2 ≤ D.length by omega),
    getByte_eq_of_lt (show (13:Nat) < D.length by omega),
    readU16_eq_of_le (show (14:Nat) + 2 ≤ D.length by omega),
    readU16_eq_of_le (show (16:Nat) + 2 ≤ D.length by omega),
    readF32_eq_of_le (show (18:Nat) + 4 ≤ D.length by omega),
    readF32_eq_of_le (show (22:Nat) + 4 ≤ D.length by omega),
    readF32_eq_of_le (show (26:Nat) + 4 ≤ D.length by omega),
    getByte_eq_of_lt (show (30:Nat) < D.length by omega),
    getByte_eq_of_lt (show (31:Nat) < D.length by omega),
    getByte_eq_of_lt (show (32:Nat) < D.length by omega),
    getByte_eq_of_lt (show (33:Nat) < D.length by omega),
    getByte_eq_of_lt (show (34:Nat) < D.length by omega),
    getByte_eq_of_lt (show (35:Nat) < D.length by omega),
    getByte_eq_of_lt (show (36:Nat) < D.length by omega),
    getByte_eq_of_lt (show (37:Nat) < D.length by omega),
    getByte_eq_of_lt (show (38:Nat) < D.length by omega),
    getByte_eq_of_lt (show (39:Nat) < D.length by omega),
    getByte_eq_of_lt (show (40:Nat) < D.length by omega),
    getByte_eq_of_lt (show (41:Nat) < D.length by omega),
    getByte_eq_of_lt (show (42:Nat) < D.length by omega),
    getByte_eq_of_lt (show (43:Nat) < D.length by omega),
    getByte_eq_of_lt (show (44:Nat) < D.length by omega),
    readU16_eq_of_le (show (45:Nat) + 2 ≤ D.length by omega),
    readU16_eq_of_le (show (47:Nat) + 2 ≤ D.length by omega),
    getByte_eq_of_lt (show (49:Nat) < D.length by omega)]
  refine ⟨_, rfl, ?_, ?_⟩
  · dsimp only
    rw [hU 8 (by omega), hB 10 (by omega)]
  · dsimp only
    rw [hU 11 (by omega), hB 13 (by omega)]

/-- A 86-byte LapData datagram for car 0 with sector-1 ms bytes
`(52, 18)` (= 4660) and a sector-1 minutes byte of 2. -/
def lapDataSample : ByteBuf :=
  (List.replicate 86 0).set 37 52 |>.set 38 18 |>.set 39 2

theorem lap_data_sector_time_recombination_witness :
    ∃ ld, parse_lap_data lapDataSample 0 = some ld ∧
      ld.sector1_time_ms =
        u16At lapDataSample (29 + 0 * 57 + 8) +
          byteAt lapDataSample (29 + 0 * 57 + 10) * 60000 ∧
      ld.sector2_time_ms =
        u16At lapDataSample (29 + 0 * 57 + 11) +
          byteAt lapDataSample (29 + 0 * 57 + 13) * 60000 :=
  lap_data_sector_time_recombination lapDataSample 0 (by decide)

/-! ## C9: motion direction-vector normalization -/

/-- A 89-byte Motion datagram for car 0 whose forward-direction raw x
component is 32767 (bytes 255, 127 at body offsets 24-25) and raw y
component is -32768 (bytes 0, 128 at offsets 26-27). -/
def carMotionExtremes : ByteBuf :=
  (List.replicate 89 0).set 53 255 |>.set 54 127 |>.set 56 128

/-- C9: on a buffer long enough for the targeted car's 60-byte record,
every component of `world_forward_dir` and `world_right_dir` is the
signed 16-bit wire value at the documented offset divided by 32767
(exact rational model of the source's division by 32767.0); concretely a
raw component of 32767 decodes to 1 and a raw component of -32768
decodes to within 1/10000 of -1. -/
theorem car_motion_direction_normalization :
    (∀ (data : ByteBuf) (ci : Nat), 29 + (ci + 1) * 60 ≤ data.length →
      ∃ cm, parse_car_motion data ci = some cm ∧
        cm.world_forward_dir =
          ⟨(i16At data (29 + ci * 60 + 24) : ℚ) / 32767,
           (i16At data (29 + ci * 60 + 26) : ℚ) / 32767,
           (i16At data (29 + ci * 60 + 28) : ℚ) / 32767⟩ ∧
        cm.world_right_dir =
          ⟨(i16At data (29 + ci * 60 + 30) : ℚ) / 32767,
           (i16At data (29 + ci * 60 + 32) : ℚ) / 32767,
           (i16At data (29 + ci * 60 + 34) : ℚ) / 32767⟩) ∧
    (∃ cm, parse_car_motion carMotionExtremes 0 = some cm ∧
      cm.world_forward_dir.x = 1 ∧
      |cm.world_forward_dir.y + 1| < 1 / 10000) := by
  have hgen : ∀ (data : ByteBuf) (ci : Nat),
      29 + (ci + 1) * 60 ≤ data.length →
      ∃ cm, parse_car_motion data ci = some cm ∧
        cm.world_forward_dir =
          ⟨(i16At data (29 + ci * 60 + 24) : ℚ) / 32767,
           (i16At data (29 + ci * 60 + 26) : ℚ) / 32767,
           (i16At data (29 + ci * 60 + 28) : ℚ) / 32767⟩ ∧
        cm.world_right_dir =
          ⟨(i16At data (29 + ci * 60 + 30) : ℚ) / 32767,
           (i16At data (29 + ci * 60 + 32) : ℚ) / 32767,
           (i16At data (29 + ci * 60 + 34) : ℚ) / 32767⟩ := by
    intro data ci hlen
    have ha : (0 : Int) ≤ 29 + (ci : Int) * 60 := by omega
    have hb : 29 + (ci : Int) * 60 + 60 ≤ (data.length : Int) := by omega
    simp only [parse_car_motion]
    rw [if_neg (show ¬ ((data.length : Int) < 29 + (ci : Int) * 60 + 60)
      by omega)]
    set D := pySlice data (29 + (ci : Int) * 60) (29 + (ci : Int) * 60 + 60)
      with hDdef
    have hDlen : D.length = 60 := by
      rw [hDdef, pySlice_length data _ _ ha (by omega) hb]
      omega
    have hD : ∀ i, i < 60 →
        D.getD i 0 = data.getD (29 + ci * 60 + i) 0 := by
      intro i hi
      rw [hDdef, pySlice_getD data _ _ i ha (by omega) hb,
        show (29 + (ci : Int) * 60).toNat + i = 29 + ci * 60 + i by omega]
    have hI : ∀ i, i + 2 ≤ 60 →
        i16At D i = i16At data (29 + ci * 60 + i) := by
      intro i hi
      unfold i16At u16At
      rw [hD i (by omega), hD (i+1) (by omega),
        show 29 + ci * 60 + (i + 1) = 29 + ci * 60 + i + 1 by omega]
    rw [read3F32_eq_of_le (show (0:Nat) + 12 ≤ D.length by omega),
      read3F32_eq_of_le (show (12:Nat) + 12 ≤ D.length by omega),
      read3I16_eq_of_le (show (24:Nat) + 6 ≤ D.length by omega),
      read3I16_eq_of_le (show (30:Nat) + 6 ≤ D.length by omega),
      read3F32_eq_of_le (show (36:Nat) + 12 ≤ D.length by omega),
      read3F32_eq_of_le (show (48:Nat) + 12 ≤ D.length by omega)]
    refine ⟨_, rfl, ?_, ?_⟩
    · dsimp only
      rw [hI 24 (by omega), hI 26 (by omega), hI 28 (by omega)]
    · dsimp only
      rw [hI 30 (by omega), hI 32 (by omega), hI 34 (by omega)]
  refine ⟨hgen, ?_⟩
  obtain ⟨cm, hcm, hfwd, hright⟩ := hgen carMotionExtremes 0 (by decide)
  refine ⟨cm, hcm, ?_, ?_⟩
  · rw [hfwd]
    dsimp only
    rw [show i16At carMotionExtremes (29 + 0 * 60 + 24) = 32767 by decide]
    norm_num
  · rw [hfwd]
    dsimp only
    rw [show i16At carMotionExtremes (29 + 0 * 60 + 26) = -32768 by decide]
    rw [abs_lt]
    constructor <;> norm_num

theorem car_motion_direction_normalization_witness :
    ∃ cm, parse_car_motion carMotionExtremes 0 = some cm ∧
      cm.world_forward_dir =
        ⟨(i16At carMotionExtremes (29 + 0 * 60 + 24) : ℚ) / 32767,
         (i16At carMotionExtremes (29 + 0 * 60 + 26) : ℚ) / 32767,
         (i16At carMotionExtremes (29 + 0 * 60 + 28) : ℚ) / 32767⟩ ∧
      cm.world_right_dir =
        ⟨(i16At carMotionExtremes (29 + 0 * 60 + 30) : ℚ) / 32767,
         (i16At carMotionExtremes (29 + 0 * 60 + 32) : ℚ) / 32767,
         (i16At carMotionExtremes (29 + 0 * 60 + 34) : ℚ) / 32767⟩ :=
  car_motion_direction_normalization.1 carMotionExtremes 0 (by decide)

/-! ## C10: event decoding is total on 33-byte-plus buffers, truncated
detail payloads keep default-zero fields -/

/-- C10: a buffer of at least 33 bytes always yields an `EventData`
record (never none); when the 4-byte code is a recognized shape (FTLP,
PNAL, SPTP, OVTK) but the remaining detail bytes fall short of that
shape's requirement (5, 7, 5, 2 bytes respectively — i.e. total length
below 38, 40, 38, 35), the record carries only the event code, all
shape-specific fields left at their default 0. -/
theorem parse_event_total_and_truncated_defaults (data : ByteBuf)
    (hlen : 33 ≤ data.length) :
    ∃ e, parse_event data = some e ∧
      ((data.drop 29).take 4 = EventData.FASTEST_LAP →
        data.length < 38 → e = { event_code := EventData.FASTEST_LAP }) ∧
      ((data.drop 29).take 4 = EventData.PENALTY_ISSUED →
        data.length < 40 →
        e = { event_code := EventData.PENALTY_ISSUED }) ∧
      ((data.drop 29).take 4 = EventData.SPEED_TRAP →
        data.length < 38 → e = { event_code := EventData.SPEED_TRAP }) ∧
      ((data.drop 29).take 4 = EventData.OVERTAKE →
        data.length < 35 → e = { event_code := EventData.OVERTAKE }) := by
  have hdet : ((data.drop 29).drop 4).length = data.length - 33 := by
    simp only [List.length_drop]
    omega
  simp only [parse_event]
  rw [if_neg (by omega)]
  refine ⟨_, rfl, ?_, ?_, ?_, ?_⟩
  · intro hcode hshort
    rw [hcode,
      if_neg (show ¬ (EventData.FASTEST_LAP = EventData.FASTEST_LAP ∧
        5 ≤ ((data.drop 29).drop 4).length) by rintro ⟨-, h5⟩; omega),
      if_neg (show ¬ ((EventData.FASTEST_LAP = EventData.RETIREMENT ∨
        EventData.FASTEST_LAP = EventData.TEAM_MATE_IN_PITS ∨
        EventData.FASTEST_LAP = EventData.RACE_WINNER) ∧
        1 ≤ ((data.drop 29).drop 4).length)
        by rintro ⟨hor, -⟩; exact absurd hor (by decide)),
      if_neg (show ¬ (EventData.FASTEST_LAP = EventData.PENALTY_ISSUED ∧
        7 ≤ ((data.drop 29).drop 4).length)
        by rintro ⟨hh, -⟩; exact absurd hh (by decide)),
      if_neg (show ¬ (EventData.FASTEST_LAP = EventData.SPEED_TRAP ∧
        5 ≤ ((data.drop 29).drop 4).length)
        by rintro ⟨hh, -⟩; exact absurd hh (by decide)),
      if_neg (show ¬ (EventData.FASTEST_LAP = EventData.OVERTAKE ∧
        2 ≤ ((data.drop 29).drop 4).length)
        by rintro ⟨hh, -⟩; exact absurd hh (by decide))]
  · intro hcode hshort
    rw [hcode,
      if_neg (show ¬ (EventData.PENALTY_ISSUED = EventData.FASTEST_LAP ∧
        5 ≤ ((data.drop 29).drop 4).length)
        by rintro ⟨hh, -⟩; exact absurd hh (by decide)),
      if_neg (show ¬ ((EventData.PENALTY_ISSUED = EventData.RETIREMENT ∨
        EventData.PENALTY_ISSUED = EventData.TEAM_MATE_IN_PITS ∨
        EventData.PENALTY_ISSUED = EventData.RACE_WINNER) ∧
        1 ≤ ((data.drop 29).drop 4).length)
        by rintro ⟨hor, -⟩; exact absurd hor (by decide)),
      if_neg (show ¬ (EventData.PENALTY_ISSUED = EventData.PENALTY_ISSUED ∧
        7 ≤ ((data.drop 29).drop 4).length) by rintro ⟨-, h7⟩; omega),
      if_neg (show ¬ (EventData.PENALTY_ISSUED = EventData.SPEED_TRAP ∧
        5 ≤ ((data.drop 29).drop 4).length)
        by rintro ⟨hh, -⟩; exact absurd hh (by decide)),
      if_neg (show ¬ (EventData.PENALTY_ISSUED = EventData.OVERTAKE ∧
        2 ≤ ((data.drop 29).drop 4).length)
        by rintro ⟨hh, -⟩; exact absurd hh (by decide))]
  · intro hcode hshort
    rw [hcode,
      if_neg (show ¬ (EventData.SPEED_TRAP = EventData.FASTEST_LAP ∧
        5 ≤ ((data.drop 29).drop 4).length)
        by rintro ⟨hh, -⟩; exact absurd hh (by decide)),
      if_neg (show ¬ ((EventData.SPEED_TRAP = EventData.RETIREMENT ∨
        EventData.SPEED_TRAP = EventData.TEAM_MATE_IN_PITS ∨
        EventData.SPEED_TRAP = EventData.RACE_WINNER) ∧
        1 ≤ ((data.drop 29).drop 4).length)
        by rintro ⟨hor, -⟩; exact absurd hor (by decide)),
      if_neg (show ¬ (EventData.SPEED_TRAP = EventData.PENALTY_ISSUED ∧
        7 ≤ ((data.drop 29).drop 4).length)
        by rintro ⟨hh, -⟩; exact absurd hh (by decide)),
      if_neg (show ¬ (EventData.SPEED_TRAP = EventData.SPEED_TRAP ∧
        5 ≤ ((data.drop 29).drop 4).length) by rintro ⟨-, h5⟩; omega),
      if_neg (show ¬ (EventData.SPEED_TRAP = EventData.OVERTAKE ∧
        2 ≤ ((data.drop 29).drop 4).length)
        by rintro ⟨hh, -⟩; exact absurd hh (by decide))]
  · intro hcode hshort
    rw [hcode,
      if_neg (show ¬ (EventData.OVERTAKE = EventData.FASTEST_LAP ∧
        5 ≤ ((data.drop 29).drop 4).length)
        by rintro ⟨hh, -⟩; exact absurd hh (by decide)),
      if_neg (show ¬ ((EventData.OVERTAKE = EventData.RETIREMENT ∨
        EventData.OVERTAKE = EventData.TEAM_MATE_IN_PITS ∨
        EventData.OVERTAKE = EventData.RACE_WINNER) ∧
        1 ≤ ((data.drop 29).drop 4).length)
        by rintro ⟨hor, -⟩; exact absurd hor (by decide)),
      if_neg (show ¬ (EventData.OVERTAKE = EventData.PENALTY_ISSUED ∧
        7 ≤ ((data.drop 29).drop 4).length)
        by rintro ⟨hh, -⟩; exact absurd hh (by decide)),
      if_neg (show ¬ (EventData.OVERTAKE = EventData.SPEED_TRAP ∧
        5 ≤ ((data.drop 29).drop 4).length)
        by rintro ⟨hh, -⟩; exact absurd hh (by decide)),
      if_neg (show ¬ (EventData.OVERTAKE = EventData.OVERTAKE ∧
        2 ≤ ((data.drop 29).drop 4).length) by rintro ⟨-, h2⟩; omega)]

/-- A 33-byte Event datagram: zero header plus the FTLP code and no
detail bytes at all. -/
def truncatedFastestLap : ByteBuf :=
  List.replicate 29 0 ++ [70, 84, 76, 80]

theorem parse_event_total_and_truncated_defaults_witness :
    ∃ e, parse_event truncatedFastestLap = some e ∧
      ((truncatedFastestLap.drop 29).take 4 = EventData.FASTEST_LAP →
        truncatedFastestLap.length < 38 →
        e = { event_code := EventData.FASTEST_LAP }) ∧
      ((truncatedFastestLap.drop 29).take 4 = EventData.PENALTY_ISSUED →
        truncatedFastestLap.length < 40 →
        e = { event_code := EventData.PENALTY_ISSUED }) ∧
      ((truncatedFastestLap.drop 29).take 4 = EventData.SPEED_TRAP →
        truncatedFastestLap.length < 38 →
        e = { event_code := EventData.SPEED_TRAP }) ∧
      ((truncatedFastestLap.drop 29).take 4 = EventData.OVERTAKE →
        truncatedFastestLap.length < 35 →
        e = { event_code := EventData.OVERTAKE }) :=
  parse_event_total_and_truncated_defaults truncatedFastestLap (by decide)

end F1
